import Mathlib

/-!
Shallow embedding of the core of the `gb-rust` Game Boy emulator, together
with proofs checking the repository's specification claims against it.

Machine integers are modelled as `Nat` (with explicit `% 2^w` masking, or a
round trip through `Int` where the source performs signed arithmetic).
Stateful Rust methods become explicit state-passing functions.  Components a
claim does not inspect (the raw memory behind `Bus::read8_direct`, the
scanline renderer, ...) are abstracted as function parameters: every theorem
then holds for all behaviours of those components.
-/

namespace GB

/-- Wrapping cast of a signed intermediate to `u8` (`as u8` in the source). -/
def wrap8 (x : Int) : Nat := (x % 256).toNat

/-- Wrapping cast of a signed intermediate to `u16` (`as u16` in the source). -/
def wrap16 (x : Int) : Nat := (x % 65536).toNat

/-! ## Interrupts (`src/crates/gb-core/src/interrupt.rs`) -/

/-- Interrupt bits and vectors, in CPU priority order. -/
inductive Interrupt where
  | VBlank
  | LcdStat
  | Timer
  | Serial
  | Joypad
deriving DecidableEq, Repr

namespace Interrupt

/-- `Interrupt::bit` -/
def bit : Interrupt → Nat
  | .VBlank => 1
  | .LcdStat => 2
  | .Timer => 4
  | .Serial => 8
  | .Joypad => 16

/-- `Interrupt::vector` -/
def vector : Interrupt → Nat
  | .VBlank => 0x0040
  | .LcdStat => 0x0048
  | .Timer => 0x0050
  | .Serial => 0x0058
  | .Joypad => 0x0060

/-- `Interrupt::from_pending_mask`: the lowest set bit selects the
interrupt (`pending.trailing_zeros()` in the source). -/
def from_pending_mask (pending : Nat) : Option Interrupt :=
  if pending = 0 then none
  else if pending % 2 = 1 then some .VBlank
  else if pending / 2 % 2 = 1 then some .LcdStat
  else if pending / 4 % 2 = 1 then some .Timer
  else if pending / 8 % 2 = 1 then some .Serial
  else if pending / 16 % 2 = 1 then some .Joypad
  else none

end Interrupt

/-- `interrupt::pending_mask` -/
def pending_mask (ie iflag : Nat) : Nat := ie &&& iflag &&& 0x1F

/-! ## Joypad (`src/crates/gb-core/src/input.rs`) -/

inductive Button where
  | Right
  | Left
  | Up
  | Down
  | A
  | B
  | Select
  | Start
deriving DecidableEq, Repr

namespace Button

/-- `Button::mask` -/
def mask : Button → Nat
  | .Right => 1
  | .Left => 2
  | .Up => 4
  | .Down => 8
  | .A => 16
  | .B => 32
  | .Select => 64
  | .Start => 128

end Button

/-- Joypad (JOYP/P1) register + button state. -/
structure Joypad where
  /-- Raw selection bits (bits 4-5) written by CPU (active low). -/
  select : Nat
  /-- Button state bitmask; 1 = pressed. -/
  state : Nat
deriving DecidableEq, Repr

namespace Joypad

/-- `Joypad::new` -/
def new : Joypad := { select := 0x30, state := 0 }

/-- `Joypad::read_joyp` -/
def read_joyp (jp : Joypad) : Nat :=
  let select_buttons := jp.select &&& 0x20 == 0
  let select_directions := jp.select &&& 0x10 == 0
  let dir_nibble :=
    if select_directions then ((jp.state &&& 0x0F) ^^^ 0xFF) &&& 0x0F else 0x0F
  let btn_nibble :=
    if select_buttons then (((jp.state >>> 4) &&& 0x0F) ^^^ 0xFF) &&& 0x0F else 0x0F
  let nibble := dir_nibble &&& btn_nibble
  0xC0 ||| (jp.select &&& 0x30) ||| nibble

/-- `Joypad::write_joyp` -/
def write_joyp (jp : Joypad) (val : Nat) : Joypad :=
  { jp with select := val &&& 0x30 }

/-- `Joypad::set_button`; returns the updated joypad together with the
updated interrupt-flag byte (Rust mutates `iflag` through a reference). -/
def set_button (jp : Joypad) (button : Button) (pressed : Bool) (iflag : Nat) :
    Joypad × Nat :=
  let mask := button.mask
  let was_pressed := jp.state &&& mask != 0
  if pressed then
    let jp := { jp with state := jp.state ||| mask }
    if !was_pressed then (jp, iflag ||| Interrupt.Joypad.bit) else (jp, iflag)
  else
    ({ jp with state := jp.state &&& (mask ^^^ 0xFF) }, iflag)

end Joypad

/-! ## Cartridge header (`src/crates/gb-core/src/cartridge/header.rs`) -/

inductive CartridgeType where
  | RomOnly
  | Mbc1
  | Mbc1Ram
  | Mbc1RamBattery
  | Mbc2
  | Mbc2Battery
  | Mbc3TimerBattery
  | Mbc3TimerRamBattery
  | Mbc3
  | Mbc3Ram
  | Mbc3RamBattery
  | Mbc5
  | Mbc5Ram
  | Mbc5RamBattery
  | Mbc5Rumble
  | Mbc5RumbleRam
  | Mbc5RumbleRamBattery
deriving DecidableEq, Repr

inductive RomSize where
  | Kilobytes32
  | Kilobytes64
  | Kilobytes128
  | Kilobytes256
  | Kilobytes512
  | Megabyte1
  | Megabyte2
  | Megabyte4
  | Megabyte8
  | Megabyte1x1
  | Megabyte1x2
  | Megabyte1x5
deriving DecidableEq, Repr

inductive RamSize where
  | None
  | Kilobytes8
  | Kilobytes32
  | Kilobytes128
  | Kilobytes64
deriving DecidableEq, Repr

inductive CgbSupport where
  | DmgOnly
  | CgbCompatible
  | CgbOnly
deriving DecidableEq, Repr

inductive HeaderError where
  | RomTooSmall
  | UnsupportedCartridgeType (byte : Nat)
  | UnsupportedRomSize (byte : Nat)
  | UnsupportedRamSize (byte : Nat)
deriving DecidableEq, Repr

/-- `RomSize::bank_count` -/
def RomSize.bank_count : RomSize → Nat
  | .Kilobytes32 => 1
  | .Kilobytes64 => 2
  | .Kilobytes128 => 4
  | .Kilobytes256 => 8
  | .Kilobytes512 => 16
  | .Megabyte1 => 32
  | .Megabyte2 => 64
  | .Megabyte4 => 128
  | .Megabyte8 => 512
  | .Megabyte1x1 => 72
  | .Megabyte1x2 => 80
  | .Megabyte1x5 => 96

/-- `RomSize::from_byte` -/
def RomSize.from_byte (byte : Nat) : Except HeaderError RomSize :=
  if byte = 0x00 then .ok .Kilobytes32
  else if byte = 0x01 then .ok .Kilobytes64
  else if byte = 0x02 then .ok .Kilobytes128
  else if byte = 0x03 then .ok .Kilobytes256
  else if byte = 0x04 then .ok .Kilobytes512
  else if byte = 0x05 then .ok .Megabyte1
  else if byte = 0x06 then .ok .Megabyte2
  else if byte = 0x07 then .ok .Megabyte4
  else if byte = 0x08 then .ok .Megabyte8
  else if byte = 0x52 then .ok .Megabyte1x1
  else if byte = 0x53 then .ok .Megabyte1x2
  else if byte = 0x54 then .ok .Megabyte1x5
  else .error (.UnsupportedRomSize byte)

/-- `RamSize::byte_len` -/
def RamSize.byte_len : RamSize → Nat
  | .None => 0
  | .Kilobytes8 => 0x2000
  | .Kilobytes32 => 0x8000
  | .Kilobytes128 => 0x20000
  | .Kilobytes64 => 0x10000

/-- `RamSize::from_byte` -/
def RamSize.from_byte (byte : Nat) : Except HeaderError RamSize :=
  if byte = 0x00 then .ok .None
  else if byte = 0x02 then .ok .Kilobytes8
  else if byte = 0x03 then .ok .Kilobytes32
  else if byte = 0x04 then .ok .Kilobytes128
  else if byte = 0x05 then .ok .Kilobytes64
  else .error (.UnsupportedRamSize byte)

/-- `CartridgeType::from_byte` -/
def CartridgeType.from_byte (byte : Nat) : Except HeaderError CartridgeType :=
  if byte = 0x00 then .ok .RomOnly
  else if byte = 0x01 then .ok .Mbc1
  else if byte = 0x02 then .ok .Mbc1Ram
  else if byte = 0x03 then .ok .Mbc1RamBattery
  else if byte = 0x05 then .ok .Mbc2
  else if byte = 0x06 then .ok .Mbc2Battery
  else if byte = 0x0F then .ok .Mbc3TimerBattery
  else if byte = 0x10 then .ok .Mbc3TimerRamBattery
  else if byte = 0x11 then .ok .Mbc3
  else if byte = 0x12 then .ok .Mbc3Ram
  else if byte = 0x13 then .ok .Mbc3RamBattery
  else if byte = 0x19 then .ok .Mbc5
  else if byte = 0x1A then .ok .Mbc5Ram
  else if byte = 0x1B then .ok .Mbc5RamBattery
  else if byte = 0x1C then .ok .Mbc5Rumble
  else if byte = 0x1D then .ok .Mbc5RumbleRam
  else if byte = 0x1E then .ok .Mbc5RumbleRamBattery
  else .error (.UnsupportedCartridgeType byte)

/-- `CgbSupport::from_byte` (the common bit-7/bit-6 interpretation, not a
strict comparison against 0x80 / 0xC0). -/
def CgbSupport.from_byte (byte : Nat) : CgbSupport :=
  if byte &&& 0xC0 = 0xC0 then .CgbOnly
  else if byte &&& 0x80 ≠ 0 then .CgbCompatible
  else .DmgOnly

structure Header where
  cartridge_type : CartridgeType
  rom_size : RomSize
  ram_size : RamSize
  cgb_support : CgbSupport
deriving DecidableEq, Repr

/-- `Header::parse` (the ROM is a byte list; indexing after the length
check matches the in-bounds indexing of the source). -/
def Header.parse (rom : List Nat) : Except HeaderError Header :=
  if rom.length < 0x014A then .error .RomTooSmall
  else
    match CartridgeType.from_byte (rom.getD 0x0147 0) with
    | .error e => .error e
    | .ok cartridge_type =>
      match RomSize.from_byte (rom.getD 0x0148 0) with
      | .error e => .error e
      | .ok rom_size =>
        match RamSize.from_byte (rom.getD 0x0149 0) with
        | .error e => .error e
        | .ok ram_size =>
          .ok { cartridge_type := cartridge_type
                rom_size := rom_size
                ram_size := ram_size
                cgb_support := CgbSupport.from_byte (rom.getD 0x0143 0) }

/-! ## Mapper state (`src/crates/gb-core/src/cartridge/mbc*.rs`), as far as
`Cartridge::from_rom` constructs it. -/

structure Mbc1 where
  ram_enabled : Bool
  rom_bank_low5 : Nat
  bank_high2 : Nat
  banking_mode : Nat
deriving DecidableEq, Repr

/-- `Mbc1::new` -/
def Mbc1.new : Mbc1 :=
  { ram_enabled := false, rom_bank_low5 := 1, bank_high2 := 0, banking_mode := 0 }

structure Mbc2 where
  ram_enabled : Bool
  rom_bank : Nat
  ram : List Nat
deriving DecidableEq, Repr

/-- `Mbc2::new` -/
def Mbc2.new : Mbc2 :=
  { ram_enabled := false, rom_bank := 1, ram := List.replicate 0x200 0 }

structure Rtc where
  sec : Nat
  min : Nat
  hour : Nat
  day_low : Nat
  day_high : Nat
deriving DecidableEq, Repr

/-- `Rtc::default` -/
def Rtc.default : Rtc := { sec := 0, min := 0, hour := 0, day_low := 0, day_high := 0 }

structure Mbc3 where
  ram_enabled : Bool
  rom_bank : Nat
  ram_rtc_select : Nat
  latch_last_write : Nat
  rtc_live : Rtc
  rtc_latched : Option Rtc
  rtc_cycle_accum : Nat
deriving DecidableEq, Repr

/-- `Mbc3::new` -/
def Mbc3.new : Mbc3 :=
  { ram_enabled := false
    rom_bank := 1
    ram_rtc_select := 0
    latch_last_write := 0xFF
    rtc_live := Rtc.default
    rtc_latched := none
    rtc_cycle_accum := 0 }

structure Mbc5 where
  ram_enabled : Bool
  rom_bank : Nat
  ram_bank : Nat
deriving DecidableEq, Repr

/-- `Mbc5::new` -/
def Mbc5.new : Mbc5 :=
  { ram_enabled := false, rom_bank := 1, ram_bank := 0 }

/-- `mbc::MbcEnum` (the tagged mapper variant). -/
inductive MbcEnum where
  | Mbc0
  | Mbc1 (s : Mbc1)
  | Mbc2 (s : Mbc2)
  | Mbc3 (s : Mbc3)
  | Mbc5 (s : Mbc5)
deriving DecidableEq, Repr

inductive CartridgeError where
  | InvalidRomSize (len : Nat)
  | InvalidHeader (e : HeaderError)
deriving DecidableEq, Repr

structure Cartridge where
  rom : List Nat
  ram : List Nat
  header : Header
  mbc : MbcEnum
deriving DecidableEq, Repr

/-- `Cartridge::from_rom` -/
def Cartridge.from_rom (rom : List Nat) : Except CartridgeError Cartridge :=
  match Header.parse rom with
  | .error e => .error (.InvalidHeader e)
  | .ok header =>
    let ram := List.replicate header.ram_size.byte_len 0
    let mbc :=
      match header.cartridge_type with
      | .RomOnly => MbcEnum.Mbc0
      | .Mbc1 | .Mbc1Ram | .Mbc1RamBattery => MbcEnum.Mbc1 Mbc1.new
      | .Mbc2 | .Mbc2Battery => MbcEnum.Mbc2 Mbc2.new
      | .Mbc3TimerBattery | .Mbc3TimerRamBattery | .Mbc3 | .Mbc3Ram
      | .Mbc3RamBattery => MbcEnum.Mbc3 Mbc3.new
      | .Mbc5 | .Mbc5Ram | .Mbc5RamBattery | .Mbc5Rumble | .Mbc5RumbleRam
      | .Mbc5RumbleRamBattery => MbcEnum.Mbc5 Mbc5.new
    .ok { rom := rom, ram := ram, header := header, mbc := mbc }

/-! ## OAM DMA engine (`src/crates/gb-core/src/dma.rs`) -/

def OAM_DMA_BYTES : Nat := 0x00A0
def OAM_DMA_CYCLES_PER_BYTE : Nat := 4

structure OamDma where
  active : Bool
  source_base : Nat
  next_byte : Nat
  /-- Remaining cycles before the first byte transfer begins. -/
  startup_delay : Nat
  cycle_budget : Nat
deriving DecidableEq, Repr

namespace OamDma

/-- `OamDma::default` -/
def default : OamDma :=
  { active := false
    source_base := 0
    next_byte := 0
    startup_delay := 0
    cycle_budget := 0 }

/-- `OamDma::start` -/
def start (d : OamDma) (page : Nat) : OamDma :=
  { d with
    active := true
    source_base := (page <<< 8) % 65536
    next_byte := 0
    startup_delay := OAM_DMA_CYCLES_PER_BYTE
    cycle_budget := 0 }

/-- `OamDma::blocks_cpu_addr` -/
def blocks_cpu_addr (d : OamDma) (addr : Nat) : Bool :=
  d.active && !(0xFF80 ≤ addr && addr ≤ 0xFFFE)

/-- `OamDma::add_cycles` -/
def add_cycles (d : OamDma) (cycles : Nat) : OamDma :=
  if !d.active then d else { d with cycle_budget := d.cycle_budget + cycles }

/-- `OamDma::pop_transfer`; the mutated engine is returned alongside the
optional `(src, dst)` pair. -/
def pop_transfer (d : OamDma) : Option (Nat × Nat) × OamDma :=
  if !d.active then (none, d)
  else
    let d :=
      if d.startup_delay > 0 then
        let consume := min d.startup_delay d.cycle_budget
        { d with
          startup_delay := d.startup_delay - consume
          cycle_budget := d.cycle_budget - consume }
      else d
    if d.startup_delay > 0 then (none, d)
    else if d.cycle_budget < OAM_DMA_CYCLES_PER_BYTE then (none, d)
    else
      let d := { d with cycle_budget := d.cycle_budget - OAM_DMA_CYCLES_PER_BYTE }
      let src := (d.source_base + d.next_byte) % 65536
      let dst := d.next_byte
      let d := { d with next_byte := (d.next_byte + 1) % 65536 }
      if d.next_byte ≥ OAM_DMA_BYTES then
        (some (src, dst),
         { d with active := false, startup_delay := 0, cycle_budget := 0 })
      else
        (some (src, dst), d)

end OamDma

/-! ## CPU-visible bus gating during OAM DMA
(`Bus::read8` / `Bus::write8`, `src/crates/gb-core/src/bus/bus.rs`).

The state behind `Bus::read8_direct` / `write8_direct`, the OAM-bug
triggers and the PPU access gate is abstracted: `R` is the rest of the
bus, and the environment supplies those four operations.  The gating
logic itself is translated faithfully. -/

structure BusGateSt (R : Type) where
  oam_dma : OamDma
  oam_bug_read_idu_pending_addr : Option Nat
  rest : R

structure BusGateEnv (R : Type) where
  read8_direct : BusGateSt R → Nat → Nat × BusGateSt R
  write8_direct : BusGateSt R → Nat → Nat → BusGateSt R
  trigger_oam_bug_on_read_access : BusGateSt R → Nat → BusGateSt R
  trigger_oam_bug_on_write_access : BusGateSt R → Nat → BusGateSt R
  cpu_access_blocked_by_ppu : BusGateSt R → Nat → Bool

/-- `Bus::read8` -/
def bus_read8 {R : Type} (env : BusGateEnv R) (b : BusGateSt R) (addr : Nat) :
    Nat × BusGateSt R :=
  let b :=
    if (match b.oam_bug_read_idu_pending_addr with
        | some pending => pending != addr
        | none => false) then
      { b with oam_bug_read_idu_pending_addr := none }
    else b
  if b.oam_dma.blocks_cpu_addr addr then (0xFF, b)
  else
    let b := env.trigger_oam_bug_on_read_access b addr
    if env.cpu_access_blocked_by_ppu b addr then (0xFF, b)
    else env.read8_direct b addr

/-- `Bus::write8` -/
def bus_write8 {R : Type} (env : BusGateEnv R) (b : BusGateSt R) (addr val : Nat) :
    BusGateSt R :=
  if b.oam_dma.blocks_cpu_addr addr then b
  else
    let b := env.trigger_oam_bug_on_write_access b addr
    if env.cpu_access_blocked_by_ppu b addr then b
    else env.write8_direct b addr val

/-! ## OAM DMA ticking (`Bus::tick_oam_dma`).

`mem` stands for `Bus::read8_direct` restricted to the DMA source reads,
and the OAM array is a function from indices to bytes. -/

structure DmaBus where
  oam_dma : OamDma
  oam : Nat → Nat

/-- The `while let Some((src, dst)) = self.oam_dma.pop_transfer()` drain
loop inside `Bus::tick_oam_dma`.  Each successful pop consumes at least
four cycles of budget and a pop from an exhausted budget returns `none`,
so `cycle_budget + 1` units of fuel (supplied by `tick_oam_dma`) always
outlast the source loop. -/
def dma_drain (mem : Nat → Nat) : Nat → DmaBus → DmaBus
  | 0, b => b
  | fuel + 1, b =>
    match b.oam_dma.pop_transfer with
    | (none, d) => { b with oam_dma := d }
    | (some sd, d) =>
        dma_drain mem fuel
          { oam_dma := d, oam := fun i => if i = sd.2 then mem sd.1 else b.oam i }

/-- `Bus::tick_oam_dma` -/
def tick_oam_dma (mem : Nat → Nat) (b : DmaBus) (cycles : Nat) : DmaBus :=
  let b := { b with oam_dma := b.oam_dma.add_cycles cycles }
  dma_drain mem (b.oam_dma.cycle_budget + 1) b

/-! ## HDMA / GDMA (CGB) (`src/crates/gb-core/src/bus/bus.rs`).

The memory behind `read8_direct` / `write8_direct` is abstracted as `R`;
HDMA register state and the HBlank bookkeeping are translated faithfully.
The `ioregs` function is the bus `io` array as far as `tick_hdma` reads it
(LCDC at 0x40, STAT at 0x41, LY at 0x44). -/

structure HdmaSt (R : Type) where
  cgb_hdma_src : Nat
  cgb_hdma_dst : Nat
  cgb_hdma_blocks_remaining : Nat
  cgb_hdma_active : Bool
  cgb_hdma_last_hblank_ly : Option Nat
  is_cgb : Bool
  ioregs : Nat → Nat
  rest : R

structure HdmaEnv (R : Type) where
  read8_direct : R → Nat → Nat × R
  write8_direct : R → Nat → Nat → R

/-- `Bus::sanitize_hdma_source` -/
def sanitize_hdma_source (addr : Nat) : Nat :=
  let masked := addr &&& 0xFFF0
  if 0x8000 ≤ masked ∧ masked ≤ 0x9FF0 then masked &&& 0x7FF0 else masked

/-- `Bus::lcd_enabled` -/
def hdma_lcd_enabled {R : Type} (st : HdmaSt R) : Bool :=
  st.ioregs 0x40 &&& 0x80 != 0

/-- `Bus::ppu_mode` -/
def hdma_ppu_mode {R : Type} (st : HdmaSt R) : Nat :=
  st.ioregs 0x41 &&& 0x03

/-- The `for i in 0..0x10` copy loop inside `Bus::perform_hdma_block`. -/
def hdma_copy_from {R : Type} (env : HdmaEnv R) (src_base dst_base i : Nat)
    (r : R) : R :=
  if i < 0x10 then
    let p := env.read8_direct r ((src_base + i) % 65536)
    let r := env.write8_direct p.2 ((dst_base + i) % 65536) p.1
    hdma_copy_from env src_base dst_base (i + 1) r
  else r
termination_by 0x10 - i
decreasing_by omega

/-- `Bus::perform_hdma_block` -/
def perform_hdma_block {R : Type} (env : HdmaEnv R) (st : HdmaSt R) : HdmaSt R :=
  if st.cgb_hdma_blocks_remaining = 0 then { st with cgb_hdma_active := false }
  else
    let src_base := sanitize_hdma_source st.cgb_hdma_src
    let dst_base := 0x8000 ||| ((st.cgb_hdma_dst - 0x8000) &&& 0x1FF0)
    let st := { st with
      rest := hdma_copy_from env src_base dst_base 0 st.rest
      cgb_hdma_src := sanitize_hdma_source ((src_base + 0x10) % 65536)
      cgb_hdma_dst := 0x8000 ||| (((dst_base - 0x8000) + 0x10) % 65536 &&& 0x1FF0)
      cgb_hdma_blocks_remaining := st.cgb_hdma_blocks_remaining - 1 }
    if st.cgb_hdma_blocks_remaining = 0 then
      { st with cgb_hdma_active := false, cgb_hdma_last_hblank_ly := none }
    else st

/-- The `while self.cgb_hdma_blocks_remaining > 0` drain loops inside
`Bus::start_hdma_transfer` (GDMA) and `Bus::tick_hdma` (LCD off). -/
def gdma_drain {R : Type} (env : HdmaEnv R) (st : HdmaSt R) : HdmaSt R :=
  if st.cgb_hdma_blocks_remaining > 0 then
    gdma_drain env (perform_hdma_block env st)
  else st
termination_by st.cgb_hdma_blocks_remaining
decreasing_by
  simp only [perform_hdma_block]
  split_ifs <;> simp_all

/-- `Bus::start_hdma_transfer` -/
def start_hdma_transfer {R : Type} (env : HdmaEnv R) (st : HdmaSt R)
    (control : Nat) : HdmaSt R :=
  if !st.is_cgb then st
  else if st.cgb_hdma_active ∧ control &&& 0x80 = 0 then
    { st with cgb_hdma_active := false, cgb_hdma_last_hblank_ly := none }
  else
    let st := { st with
      cgb_hdma_src := sanitize_hdma_source st.cgb_hdma_src
      cgb_hdma_dst := 0x8000 ||| ((st.cgb_hdma_dst - 0x8000) &&& 0x1FF0)
      cgb_hdma_blocks_remaining := ((control &&& 0x7F) + 1) % 256
      cgb_hdma_last_hblank_ly := none }
    if control &&& 0x80 = 0 then
      gdma_drain env { st with cgb_hdma_active := false }
    else
      { st with cgb_hdma_active := true }

/-- `Bus::tick_hdma` -/
def tick_hdma {R : Type} (env : HdmaEnv R) (st : HdmaSt R) : HdmaSt R :=
  if !st.is_cgb || !st.cgb_hdma_active then st
  else if !(hdma_lcd_enabled st) then gdma_drain env st
  else
    let ly := st.ioregs 0x44
    let mode := hdma_ppu_mode st
    if mode = 0 ∧ ly < 144 then
      if st.cgb_hdma_last_hblank_ly ≠ some ly then
        let st := perform_hdma_block env st
        { st with cgb_hdma_last_hblank_ly := some ly }
      else st
    else
      { st with cgb_hdma_last_hblank_ly := none }

/-- `Bus::read_hdma5` -/
def read_hdma5 {R : Type} (st : HdmaSt R) : Nat :=
  if !st.is_cgb then 0xFF
  else if !st.cgb_hdma_active ∧ st.cgb_hdma_blocks_remaining = 0 then 0xFF
  else
    let len := (st.cgb_hdma_blocks_remaining - 1) &&& 0x7F
    if st.cgb_hdma_active then len else 0x80 ||| len

/-- An environment instance for the HDMA theorems: reads come from a fixed
memory image and writes are recorded in an append-only log. -/
structure HdmaLog where
  mem : Nat → Nat
  writes : List (Nat × Nat)

def hdma_log_env : HdmaEnv HdmaLog where
  read8_direct := fun r a => (r.mem a, r)
  write8_direct := fun r a v => { r with writes := r.writes ++ [(a, v)] }

/-! ## PPU timing state machine (`src/crates/gb-core/src/ppu/ppu.rs`).

The framebuffer is a function from pixel index to ARGB value and the bus
`io` array is a function from register index to byte.  The scanline
renderer (`render::render_scanline`, which only writes pixels of line
`ly`) is abstracted as the parameter `render`, taking the framebuffer,
`ly` and the `io` array (VRAM and OAM, both read-only inputs of the
renderer, are baked into it). -/

def DMG_SHADES : List Nat := [0xFFFFFFFF, 0xFFAAAAAA, 0xFF555555, 0xFF000000]

structure Ppu where
  framebuffer : Nat → Nat
  frame_ready : Bool
  dots : Nat
  ly : Nat
  mode : Nat
  lcd_enabled : Bool
  prev_coincidence : Bool

/-- `Ppu::new` -/
def Ppu.new : Ppu where
  framebuffer := fun _ => DMG_SHADES.getD 0 0
  frame_ready := false
  dots := 0
  ly := 0
  mode := 0
  lcd_enabled := false
  prev_coincidence := false

/-- `Ppu::clear_framebuffer` -/
def Ppu.clear_framebuffer (p : Ppu) : Ppu :=
  { p with framebuffer := fun _ => DMG_SHADES.getD 0 0 }

/-- `Ppu::cycles_to_next_event` (Nat subtraction stands in for the u32
subtraction, which never underflows on the states the PPU maintains). -/
def Ppu.cycles_to_next_event (p : Ppu) : Nat :=
  if p.ly ≥ 144 then 456 - p.dots
  else if p.mode = 2 then 80 - p.dots
  else if p.mode = 3 then 252 - p.dots
  else 456 - p.dots

/-- `Ppu::tick`'s mutable context: the PPU itself, the bus `io` array and
the interrupt-flag byte. -/
structure PpuCtx where
  ppu : Ppu
  ioregs : Nat → Nat
  iflag : Nat

/-- Pointwise array update (`io[i] = v`). -/
def fupd (f : Nat → Nat) (k v : Nat) : Nat → Nat :=
  fun i => if i = k then v else f i

/-- `Ppu::set_mode` -/
def ppu_set_mode (m : Nat) (s : PpuCtx) : PpuCtx :=
  if m = s.ppu.mode then s
  else
    let s := { s with ppu := { s.ppu with mode := m } }
    if s.ppu.mode = 0 ∧ s.ioregs 0x41 &&& 0x08 ≠ 0 then { s with iflag := s.iflag ||| 0x02 }
    else if s.ppu.mode = 1 ∧ s.ioregs 0x41 &&& 0x10 ≠ 0 then { s with iflag := s.iflag ||| 0x02 }
    else if s.ppu.mode = 2 ∧ s.ioregs 0x41 &&& 0x20 ≠ 0 then { s with iflag := s.iflag ||| 0x02 }
    else s

/-- `Ppu::sync_registers` -/
def ppu_sync_registers (s : PpuCtx) : PpuCtx :=
  let ioregs := fupd s.ioregs 0x44 s.ppu.ly
  let coincidence := s.ppu.ly = ioregs 0x45
  let iflag :=
    if coincidence ∧ ¬s.ppu.prev_coincidence ∧ ioregs 0x41 &&& 0x40 ≠ 0 then
      s.iflag ||| 0x02
    else s.iflag
  let ppu := { s.ppu with prev_coincidence := coincidence }
  let stat := (ioregs 0x41 &&& 0x78) ||| (ppu.mode &&& 0x03)
  let stat := if coincidence then stat ||| 0x04 else stat
  { ppu := ppu, ioregs := fupd ioregs 0x41 stat, iflag := iflag }

/-- The `while cycles > 0` loop of `Ppu::tick`.  The source loop always
terminates because every iteration either consumes cycles or fires a
mode / line transition enabling the next iteration to consume; `fuel`
(instantiated with `2 * cycles + 2` at the call site, an upper bound on
the iteration count) makes that termination structural. -/
def ppu_tick_loop (render : (Nat → Nat) → Nat → (Nat → Nat) → Nat → Nat)
    (fuel cycles : Nat) (s : PpuCtx) : PpuCtx :=
  match fuel with
  | 0 => s
  | fuel + 1 =>
    if cycles = 0 then s
    else
      let next := s.ppu.cycles_to_next_event
      let step := min next cycles
      let s := { s with ppu := { s.ppu with dots := s.ppu.dots + step } }
      let cycles := cycles - step
      -- Mode transitions during visible lines.
      let s :=
        if s.ppu.ly < 144 then
          if s.ppu.mode = 2 ∧ s.ppu.dots = 80 then
            ppu_set_mode 3
              { s with ppu :=
                { s.ppu with framebuffer := render s.ppu.framebuffer s.ppu.ly s.ioregs } }
          else if s.ppu.mode = 3 ∧ s.ppu.dots = 252 then ppu_set_mode 0 s
          else s
        else s
      -- End-of-line.
      let s :=
        if s.ppu.dots = 456 then
          let s := { s with ppu := { s.ppu with dots := 0, ly := (s.ppu.ly + 1) % 256 } }
          let s :=
            if s.ppu.ly = 144 then
              ppu_set_mode 1
                { s with ppu := { s.ppu with frame_ready := true }, iflag := s.iflag ||| 0x01 }
            else if s.ppu.ly > 153 then
              ppu_set_mode 2 { s with ppu := { s.ppu with ly := 0 } }
            else if s.ppu.ly ≥ 144 then ppu_set_mode 1 s
            else ppu_set_mode 2 s
          ppu_sync_registers s
        else s
      ppu_tick_loop render fuel cycles s

/-- `Ppu::tick` -/
def Ppu.tick (render : (Nat → Nat) → Nat → (Nat → Nat) → Nat → Nat)
    (cycles : Nat) (s : PpuCtx) : PpuCtx :=
  let enabled := s.ioregs 0x40 &&& 0x80 != 0
  if !enabled then
    let s := if s.ppu.lcd_enabled then { s with ppu := s.ppu.clear_framebuffer } else s
    let s := { s with ppu :=
      { s.ppu with
        lcd_enabled := false
        dots := 0
        ly := 0
        mode := 0
        prev_coincidence := false
        frame_ready := false } }
    ppu_sync_registers s
  else
    let s :=
      if !s.ppu.lcd_enabled then
        { s with ppu :=
          { s.ppu with
            lcd_enabled := true
            dots := 4
            ly := 0
            mode := 2
            prev_coincidence := false } }
      else s
    ppu_sync_registers (ppu_tick_loop render (2 * cycles + 2) cycles s)

/-! ## APU square channel (`src/crates/gb-core/src/apu/channels/square.rs`).

Only the DAC/length/trigger state machine is embedded; the floating-point
`output` mixer hook is not needed by any claim. -/

structure SquareChannel where
  enabled : Bool
  dac_enabled : Bool
  sweep : Nat
  duty_length : Nat
  envelope : Nat
  freq_lo : Nat
  freq_hi : Nat
  length_counter : Nat
  length_frozen : Bool
  timer : Nat
  duty_step : Nat
  volume : Nat
  env_timer : Nat
  sweep_timer : Nat
  sweep_enabled : Bool
  sweep_shadow_freq : Nat
  sweep_negate_used : Bool
  has_sweep : Bool
deriving DecidableEq, Repr

namespace SquareChannel

/-- `SquareChannel::new` -/
def new (has_sweep : Bool) : SquareChannel where
  enabled := false
  dac_enabled := false
  sweep := 0
  duty_length := 0
  envelope := 0
  freq_lo := 0
  freq_hi := 0
  length_counter := 0
  length_frozen := false
  timer := 1
  duty_step := 0
  volume := 0
  env_timer := 0
  sweep_timer := 0
  sweep_enabled := false
  sweep_shadow_freq := 0
  sweep_negate_used := false
  has_sweep := has_sweep

/-- `SquareChannel::frequency` -/
def frequency (ch : SquareChannel) : Nat :=
  ((ch.freq_hi &&& 0x07) <<< 8) ||| ch.freq_lo

/-- `SquareChannel::set_frequency` -/
def set_frequency (ch : SquareChannel) (freq : Nat) : SquareChannel :=
  { ch with
    freq_lo := freq &&& 0x00FF
    freq_hi := (ch.freq_hi &&& 0xF8) ||| ((freq >>> 8) &&& 0x07) }

/-- `SquareChannel::period` -/
def period (ch : SquareChannel) : Nat :=
  (2048 - ch.frequency) * 4

/-- `SquareChannel::envelope_period` -/
def envelope_period (ch : SquareChannel) : Nat :=
  let p := ch.envelope &&& 0x07
  if p = 0 then 8 else p

/-- `SquareChannel::sweep_period` -/
def sweep_period (ch : SquareChannel) : Nat :=
  let p := (ch.sweep >>> 4) &&& 0x07
  if p = 0 then 8 else p

/-- `SquareChannel::sweep_calculate` -/
def sweep_calculate (ch : SquareChannel) : Option Nat × SquareChannel :=
  let shift := ch.sweep &&& 0x07
  let delta := ch.sweep_shadow_freq >>> shift
  let negate := ch.sweep &&& 0x08 != 0
  let ch := if negate then { ch with sweep_negate_used := true } else ch
  let new_freq :=
    if negate then wrap16 ((ch.sweep_shadow_freq : Int) - delta)
    else (ch.sweep_shadow_freq + delta) % 65536
  if new_freq > 2047 then (none, { ch with enabled := false })
  else (some new_freq, ch)

/-- `SquareChannel::clock_length_internal` -/
def clock_length_internal (ch : SquareChannel) (is_extra_clock cgb_mode : Bool) :
    SquareChannel :=
  if ch.freq_hi &&& 0x40 = 0 then ch
  else if ch.length_counter > 0 then
    let ch := { ch with length_counter := ch.length_counter - 1 }
    if ch.length_counter = 0 then
      let ch := { ch with enabled := false }
      if is_extra_clock && cgb_mode then { ch with length_frozen := true } else ch
    else ch
  else ch

/-- `SquareChannel::clock_length` -/
def clock_length (ch : SquareChannel) : SquareChannel :=
  ch.clock_length_internal false false

/-- `SquareChannel::trigger` -/
def trigger (ch : SquareChannel) : SquareChannel :=
  let ch := if ch.length_counter = 0 then { ch with length_counter := 64 } else ch
  let ch := { ch with
    length_frozen := false
    timer := ch.period
    duty_step := 0
    volume := (ch.envelope >>> 4) &&& 0x0F
    env_timer := ch.envelope_period
    enabled := ch.dac_enabled }
  if ch.has_sweep then
    let ch := { ch with
      sweep_shadow_freq := ch.frequency
      sweep_timer := ch.sweep_period }
    let shift := ch.sweep &&& 0x07
    let p := (ch.sweep >>> 4) &&& 0x07
    let ch := { ch with
      sweep_enabled := p ≠ 0 ∨ shift ≠ 0
      sweep_negate_used := false }
    if shift ≠ 0 then (sweep_calculate ch).2 else ch
  else ch

/-- `SquareChannel::write_duty_length` -/
def write_duty_length (ch : SquareChannel) (value : Nat) : SquareChannel :=
  let ch := { ch with duty_length := value }
  let len := 64 - (value &&& 0x3F)
  { ch with length_counter := if len = 0 then 64 else len }

/-- `SquareChannel::write_nr14` -/
def write_nr14 (ch : SquareChannel) (value frame_seq_step : Nat) (cgb_mode : Bool) :
    SquareChannel :=
  let old_len_en := ch.freq_hi &&& 0x40 != 0
  let new_len_en := value &&& 0x40 != 0
  let trigger_flag := value &&& 0x80 != 0
  let old_frozen := ch.length_frozen
  let ch := { ch with freq_hi := value &&& 0xC7 }
  -- Hardware quirk: writing NRx4 on an odd frame sequencer step while
  -- enabling the length counter performs one extra length clock before
  -- the trigger is processed.
  let do_extra := (frame_seq_step % 2 != 0) && !old_len_en && new_len_en
  let ch := if do_extra then ch.clock_length_internal true cgb_mode else ch
  let extra_froze := do_extra && cgb_mode && ch.length_frozen
  let ch := if trigger_flag then ch.trigger else ch
  if (frame_seq_step % 2 != 0) && trigger_flag && new_len_en && cgb_mode
      && (old_frozen || extra_froze) then
    ch.clock_length_internal false cgb_mode
  else ch

end SquareChannel

/-! ## CPU (`src/crates/gb-core/src/cpu/cpu.rs`, `ops.rs`, `cb_ops.rs`).

The bus is abstracted behind `CpuBusEnv`: an arbitrary state type `B`
together with the operations the CPU invokes on it (`Bus::read8`,
`Bus::write8`, `Bus::tick`, the `ie` / `iflag` fields and
`Bus::try_cgb_speed_switch`).  Every CPU theorem therefore holds for every
ROM and every bus behaviour.  Stateful methods return value-first tuples
`(result, cpu, bus)`. -/

structure CpuBusEnv (B : Type) where
  read8 : B → Nat → Nat × B
  write8 : B → Nat → Nat → B
  tick : B → Nat → B
  ie : B → Nat
  iflag : B → Nat
  /-- `bus.iflag &= mask` (used by interrupt dispatch). -/
  and_iflag : B → Nat → B
  try_cgb_speed_switch : B → Bool × B

inductive R8 where
  | A
  | F
  | B
  | C
  | D
  | E
  | H
  | L
  /-- Memory at address in HL. -/
  | HlInd
deriving DecidableEq, Repr

inductive Flag where
  | Z
  | N
  | H
  | C
deriving DecidableEq, Repr

/-- `Flag::mask` -/
def Flag.mask : Flag → Nat
  | .Z => 0x80
  | .N => 0x40
  | .H => 0x20
  | .C => 0x10

structure Cpu where
  a : Nat
  f : Nat
  b : Nat
  c : Nat
  d : Nat
  e : Nat
  h : Nat
  l : Nat
  sp : Nat
  pc : Nat
  ime : Bool
  halted : Bool
  /-- Set by EI; IME becomes true after the following instruction completes. -/
  ei_pending : Bool
  /-- HALT bug latch: next opcode fetch reads at PC without incrementing it. -/
  halt_bug : Bool
  step_cycles : Nat
deriving DecidableEq, Repr

namespace Cpu

/-- `Cpu::new` -/
def new : Cpu where
  a := 0
  f := 0
  b := 0
  c := 0
  d := 0
  e := 0
  h := 0
  l := 0
  sp := 0
  pc := 0
  ime := false
  halted := false
  ei_pending := false
  halt_bug := false
  step_cycles := 0

/-- `Cpu::flag` -/
def flag (cpu : Cpu) (fl : Flag) : Bool :=
  cpu.f &&& fl.mask != 0

/-- `Cpu::set_flag` -/
def set_flag (cpu : Cpu) (fl : Flag) (value : Bool) : Cpu :=
  let f := if value then cpu.f ||| fl.mask else cpu.f &&& (fl.mask ^^^ 0xFF)
  { cpu with f := f &&& 0xF0 }

/-- `Cpu::af` -/
def af (cpu : Cpu) : Nat := (cpu.a <<< 8) ||| (cpu.f &&& 0xF0)

/-- `Cpu::set_af` -/
def set_af (cpu : Cpu) (v : Nat) : Cpu :=
  { cpu with a := (v >>> 8) &&& 0xFF, f := (v &&& 0xFF) &&& 0xF0 }

/-- `Cpu::bc` -/
def bc (cpu : Cpu) : Nat := (cpu.b <<< 8) ||| cpu.c

/-- `Cpu::set_bc` -/
def set_bc (cpu : Cpu) (v : Nat) : Cpu :=
  { cpu with b := (v >>> 8) &&& 0xFF, c := v &&& 0xFF }

/-- `Cpu::de` -/
def de (cpu : Cpu) : Nat := (cpu.d <<< 8) ||| cpu.e

/-- `Cpu::set_de` -/
def set_de (cpu : Cpu) (v : Nat) : Cpu :=
  { cpu with d := (v >>> 8) &&& 0xFF, e := v &&& 0xFF }

/-- `Cpu::hl` -/
def hl (cpu : Cpu) : Nat := (cpu.h <<< 8) ||| cpu.l

/-- `Cpu::set_hl` -/
def set_hl (cpu : Cpu) (v : Nat) : Cpu :=
  { cpu with h := (v >>> 8) &&& 0xFF, l := v &&& 0xFF }

variable {B : Type}

/-- `Cpu::tick_mcycle` -/
def tick_mcycle (env : CpuBusEnv B) (cpu : Cpu) (bus : B) : Cpu × B :=
  ({ cpu with step_cycles := cpu.step_cycles + 4 }, env.tick bus 4)

/-- `Cpu::tick_idle` -/
def tick_idle (env : CpuBusEnv B) (cpu : Cpu) (bus : B) (cycles : Nat) : Cpu × B :=
  ({ cpu with step_cycles := cpu.step_cycles + cycles }, env.tick bus cycles)

/-- `Cpu::finish_step` -/
def finish_step (env : CpuBusEnv B) (cpu : Cpu) (bus : B) (target_cycles : Nat) :
    Nat × Cpu × B :=
  if cpu.step_cycles < target_cycles then
    let p := tick_idle env cpu bus (target_cycles - cpu.step_cycles)
    (target_cycles, p.1, p.2)
  else (target_cycles, cpu, bus)

/-- `Cpu::read8` -/
def read8 (env : CpuBusEnv B) (cpu : Cpu) (bus : B) (addr : Nat) : Nat × Cpu × B :=
  let p := env.read8 bus addr
  let q := tick_mcycle env cpu p.2
  (p.1, q.1, q.2)

/-- `Cpu::write8` -/
def write8 (env : CpuBusEnv B) (cpu : Cpu) (bus : B) (addr val : Nat) : Cpu × B :=
  tick_mcycle env cpu (env.write8 bus addr val)

/-- `Cpu::fetch8` -/
def fetch8 (env : CpuBusEnv B) (cpu : Cpu) (bus : B) : Nat × Cpu × B :=
  let addr := cpu.pc
  let p := read8 env cpu bus addr
  let cpu := p.2.1
  let cpu :=
    if cpu.halt_bug then { cpu with halt_bug := false }
    else { cpu with pc := (cpu.pc + 1) % 65536 }
  (p.1, cpu, p.2.2)

/-- `Cpu::fetch16` (`u16::from_le_bytes([lo, hi])`) -/
def fetch16 (env : CpuBusEnv B) (cpu : Cpu) (bus : B) : Nat × Cpu × B :=
  let p := fetch8 env cpu bus
  let q := fetch8 env p.2.1 p.2.2
  ((q.1 <<< 8) ||| p.1, q.2.1, q.2.2)

/-- `Cpu::read_r8` -/
def read_r8 (env : CpuBusEnv B) (cpu : Cpu) (bus : B) (r : R8) : Nat × Cpu × B :=
  match r with
  | .A => (cpu.a, cpu, bus)
  | .F => (cpu.f &&& 0xF0, cpu, bus)
  | .B => (cpu.b, cpu, bus)
  | .C => (cpu.c, cpu, bus)
  | .D => (cpu.d, cpu, bus)
  | .E => (cpu.e, cpu, bus)
  | .H => (cpu.h, cpu, bus)
  | .L => (cpu.l, cpu, bus)
  | .HlInd => read8 env cpu bus cpu.hl

/-- `Cpu::write_r8` -/
def write_r8 (env : CpuBusEnv B) (cpu : Cpu) (bus : B) (r : R8) (v : Nat) : Cpu × B :=
  match r with
  | .A => ({ cpu with a := v }, bus)
  | .F => ({ cpu with f := v &&& 0xF0 }, bus)
  | .B => ({ cpu with b := v }, bus)
  | .C => ({ cpu with c := v }, bus)
  | .D => ({ cpu with d := v }, bus)
  | .E => ({ cpu with e := v }, bus)
  | .H => ({ cpu with h := v }, bus)
  | .L => ({ cpu with l := v }, bus)
  | .HlInd => write8 env cpu bus cpu.hl v

/-- `Cpu::push16` (`v.to_be_bytes()`; SP decrements wrap at 2^16) -/
def push16 (env : CpuBusEnv B) (cpu : Cpu) (bus : B) (v : Nat) : Cpu × B :=
  let hi := v >>> 8
  let lo := v &&& 0xFF
  let cpu := { cpu with sp := (cpu.sp + 65535) % 65536 }
  let p := write8 env cpu bus cpu.sp hi
  let cpu := { p.1 with sp := (p.1.sp + 65535) % 65536 }
  write8 env cpu p.2 cpu.sp lo

/-- `Cpu::pop16` (`u16::from_be_bytes([hi, lo])`) -/
def pop16 (env : CpuBusEnv B) (cpu : Cpu) (bus : B) : Nat × Cpu × B :=
  let p := read8 env cpu bus cpu.sp
  let cpu := { p.2.1 with sp := (p.2.1.sp + 1) % 65536 }
  let q := read8 env cpu p.2.2 cpu.sp
  let cpu := { q.2.1 with sp := (q.2.1.sp + 1) % 65536 }
  ((q.1 <<< 8) ||| p.1, cpu, q.2.2)

end Cpu

/-! ### Instruction helpers (`src/crates/gb-core/src/cpu/ops.rs`) -/

/-- `ops::r8_from_code` -/
def r8_from_code (code : Nat) : R8 :=
  if code &&& 0x07 = 0 then .B
  else if code &&& 0x07 = 1 then .C
  else if code &&& 0x07 = 2 then .D
  else if code &&& 0x07 = 3 then .E
  else if code &&& 0x07 = 4 then .H
  else if code &&& 0x07 = 5 then .L
  else if code &&& 0x07 = 6 then .HlInd
  else .A

/-- `ops::alu_add` -/
def alu_add (cpu : Cpu) (a b carry_in : Nat) : Nat × Cpu :=
  let sum := a + b + carry_in
  let res := sum % 256
  let cpu := cpu.set_flag .Z (res == 0)
  let cpu := cpu.set_flag .N false
  let cpu := cpu.set_flag .H (decide ((a &&& 0x0F) + (b &&& 0x0F) + carry_in > 0x0F))
  let cpu := cpu.set_flag .C (decide (sum > 0xFF))
  (res, cpu)

/-- `ops::alu_sub` -/
def alu_sub (cpu : Cpu) (a b carry_in : Nat) : Nat × Cpu :=
  let res := wrap8 ((a : Int) - b - carry_in)
  let cpu := cpu.set_flag .Z (res == 0)
  let cpu := cpu.set_flag .N true
  let cpu := cpu.set_flag .H (decide ((a &&& 0x0F) < (b &&& 0x0F) + carry_in))
  let cpu := cpu.set_flag .C (decide (a < b + carry_in))
  (res, cpu)

/-- `ops::cond` -/
def cond_check (cpu : Cpu) (opcode : Nat) : Bool :=
  if opcode = 0x20 ∨ opcode = 0xC0 ∨ opcode = 0xC2 ∨ opcode = 0xC4 then !cpu.flag .Z
  else if opcode = 0x28 ∨ opcode = 0xC8 ∨ opcode = 0xCA ∨ opcode = 0xCC then cpu.flag .Z
  else if opcode = 0x30 ∨ opcode = 0xD0 ∨ opcode = 0xD2 ∨ opcode = 0xD4 then !cpu.flag .C
  else if opcode = 0x38 ∨ opcode = 0xD8 ∨ opcode = 0xDA ∨ opcode = 0xDC then cpu.flag .C
  else true

/-- `ops::jr` (`pc as i32 + off as i32` cast back to u16). -/
def jr (cpu : Cpu) (off : Int) : Cpu :=
  { cpu with pc := wrap16 ((cpu.pc : Int) + off) }

/-- Reinterpret a fetched byte as `i8` (`v as i8`). -/
def as_i8 (v : Nat) : Int :=
  if v ≥ 128 then (v : Int) - 256 else (v : Int)

/-- `ops::daa` -/
def daa (cpu : Cpu) : Cpu :=
  let a := cpu.a
  let c := cpu.flag .C
  let res :=
    if !cpu.flag .N then
      let adjust := if cpu.flag .H || decide (a &&& 0x0F > 0x09) then 0x06 else 0x00
      let adjust := if c || decide (a > 0x99) then adjust ||| 0x60 else adjust
      ((a + adjust) % 256, c || decide (a > 0x99))
    else
      let adjust : Nat := if cpu.flag .H then 0x06 else 0x00
      let adjust : Nat := if c then adjust ||| 0x60 else adjust
      (wrap8 ((a : Int) - (adjust : Int)), c)
  let cpu := { cpu with a := res.1 }
  let cpu := cpu.set_flag .Z (cpu.a == 0)
  let cpu := cpu.set_flag .H false
  cpu.set_flag .C res.2

/-- `ops::exec`: non-CB instruction implementations.  The Rust `match` on
the opcode becomes an if-chain in source order (which preserves the match
semantics: 0x76 is tested before the 0x40..=0x7F range). -/
def ops_exec {B : Type} (env : CpuBusEnv B) (cpu : Cpu) (bus : B) (opcode : Nat) :
    Nat × Cpu × B :=
  if opcode = 0x00 then (4, cpu, bus) -- NOP
  else if opcode = 0x10 then
    -- STOP; consume the following padding byte.
    let p := Cpu.fetch8 env cpu bus
    let q := env.try_cgb_speed_switch p.2.2
    (8, { p.2.1 with halted := !q.1 }, q.2)
  -- 16-bit loads
  else if opcode = 0x01 then
    let p := Cpu.fetch16 env cpu bus
    (12, Cpu.set_bc p.2.1 p.1, p.2.2)
  else if opcode = 0x11 then
    let p := Cpu.fetch16 env cpu bus
    (12, Cpu.set_de p.2.1 p.1, p.2.2)
  else if opcode = 0x21 then
    let p := Cpu.fetch16 env cpu bus
    (12, Cpu.set_hl p.2.1 p.1, p.2.2)
  else if opcode = 0x31 then
    let p := Cpu.fetch16 env cpu bus
    (12, { p.2.1 with sp := p.1 }, p.2.2)
  else if opcode = 0x08 then
    let p := Cpu.fetch16 env cpu bus
    let addr := p.1
    let cpu := p.2.1
    let q := Cpu.write8 env cpu p.2.2 addr (cpu.sp &&& 0xFF)
    let r := Cpu.write8 env q.1 q.2 ((addr + 1) % 65536) ((cpu.sp >>> 8) &&& 0xFF)
    (20, r.1, r.2)
  -- LD (rr),A / LD A,(rr)
  else if opcode = 0x02 then
    let p := Cpu.write8 env cpu bus cpu.bc cpu.a
    (8, p.1, p.2)
  else if opcode = 0x0A then
    let p := Cpu.read8 env cpu bus cpu.bc
    (8, { p.2.1 with a := p.1 }, p.2.2)
  else if opcode = 0x12 then
    let p := Cpu.write8 env cpu bus cpu.de cpu.a
    (8, p.1, p.2)
  else if opcode = 0x1A then
    let p := Cpu.read8 env cpu bus cpu.de
    (8, { p.2.1 with a := p.1 }, p.2.2)
  -- LD (HL+/-),A / LD A,(HL+/-)
  else if opcode = 0x22 then
    let addr := cpu.hl
    let p := Cpu.write8 env cpu bus addr cpu.a
    (8, Cpu.set_hl p.1 ((addr + 1) % 65536), p.2)
  else if opcode = 0x2A then
    let addr := cpu.hl
    let p := Cpu.read8 env cpu bus addr
    (8, Cpu.set_hl { p.2.1 with a := p.1 } ((addr + 1) % 65536), p.2.2)
  else if opcode = 0x32 then
    let addr := cpu.hl
    let p := Cpu.write8 env cpu bus addr cpu.a
    (8, Cpu.set_hl p.1 ((addr + 65535) % 65536), p.2)
  else if opcode = 0x3A then
    let addr := cpu.hl
    let p := Cpu.read8 env cpu bus addr
    (8, Cpu.set_hl { p.2.1 with a := p.1 } ((addr + 65535) % 65536), p.2.2)
  -- LD (a16),A / LD A,(a16)
  else if opcode = 0xEA then
    let p := Cpu.fetch16 env cpu bus
    let q := Cpu.write8 env p.2.1 p.2.2 p.1 p.2.1.a
    (16, q.1, q.2)
  else if opcode = 0xFA then
    let p := Cpu.fetch16 env cpu bus
    let q := Cpu.read8 env p.2.1 p.2.2 p.1
    (16, { q.2.1 with a := q.1 }, q.2.2)
  -- LDH (a8),A / LDH A,(a8)
  else if opcode = 0xE0 then
    let p := Cpu.fetch8 env cpu bus
    let q := Cpu.write8 env p.2.1 p.2.2 (0xFF00 ||| p.1) p.2.1.a
    (12, q.1, q.2)
  else if opcode = 0xF0 then
    let p := Cpu.fetch8 env cpu bus
    let q := Cpu.read8 env p.2.1 p.2.2 (0xFF00 ||| p.1)
    (12, { q.2.1 with a := q.1 }, q.2.2)
  -- LD (C),A / LD A,(C)
  else if opcode = 0xE2 then
    let p := Cpu.write8 env cpu bus (0xFF00 ||| cpu.c) cpu.a
    (8, p.1, p.2)
  else if opcode = 0xF2 then
    let p := Cpu.read8 env cpu bus (0xFF00 ||| cpu.c)
    (8, { p.2.1 with a := p.1 }, p.2.2)
  -- LD r,d8
  else if opcode = 0x06 ∨ opcode = 0x0E ∨ opcode = 0x16 ∨ opcode = 0x1E ∨
      opcode = 0x26 ∨ opcode = 0x2E ∨ opcode = 0x36 ∨ opcode = 0x3E then
    let r := r8_from_code ((opcode >>> 3) &&& 0x07)
    let p := Cpu.fetch8 env cpu bus
    let q := Cpu.write_r8 env p.2.1 p.2.2 r p.1
    (if r = .HlInd then 12 else 8, q.1, q.2)
  -- HALT (tested before the 0x40..=0x7F LD range, as in the source match)
  else if opcode = 0x76 then
    -- HALT bug: when IME=0 and an interrupt is already pending, HALT does
    -- not enter the halted state and the next opcode fetch does not
    -- increment PC.
    if !cpu.ime && pending_mask (env.ie bus) (env.iflag bus) != 0 then
      (4, { cpu with halt_bug := true }, bus)
    else
      (4, { cpu with halted := true }, bus)
  -- LD r,r'
  else if 0x40 ≤ opcode ∧ opcode ≤ 0x7F then
    let dst := r8_from_code ((opcode >>> 3) &&& 0x07)
    let src := r8_from_code (opcode &&& 0x07)
    let p := Cpu.read_r8 env cpu bus src
    let q := Cpu.write_r8 env p.2.1 p.2.2 dst p.1
    (if dst = .HlInd ∨ src = .HlInd then 8 else 4, q.1, q.2)
  -- INC r
  else if opcode = 0x04 ∨ opcode = 0x0C ∨ opcode = 0x14 ∨ opcode = 0x1C ∨
      opcode = 0x24 ∨ opcode = 0x2C ∨ opcode = 0x34 ∨ opcode = 0x3C then
    let r := r8_from_code ((opcode >>> 3) &&& 0x07)
    let p := Cpu.read_r8 env cpu bus r
    let v := p.1
    let res := (v + 1) % 256
    let q := Cpu.write_r8 env p.2.1 p.2.2 r res
    let cpu := q.1
    let cpu := cpu.set_flag .Z (res == 0)
    let cpu := cpu.set_flag .N false
    let cpu := cpu.set_flag .H (v &&& 0x0F == 0x0F)
    (if r = .HlInd then 12 else 4, cpu, q.2)
  -- DEC r
  else if opcode = 0x05 ∨ opcode = 0x0D ∨ opcode = 0x15 ∨ opcode = 0x1D ∨
      opcode = 0x25 ∨ opcode = 0x2D ∨ opcode = 0x35 ∨ opcode = 0x3D then
    let r := r8_from_code ((opcode >>> 3) &&& 0x07)
    let p := Cpu.read_r8 env cpu bus r
    let v := p.1
    let res := wrap8 ((v : Int) - 1)
    let q := Cpu.write_r8 env p.2.1 p.2.2 r res
    let cpu := q.1
    let cpu := cpu.set_flag .Z (res == 0)
    let cpu := cpu.set_flag .N true
    let cpu := cpu.set_flag .H (v &&& 0x0F == 0x00)
    (if r = .HlInd then 12 else 4, cpu, q.2)
  -- INC/DEC rr
  else if opcode = 0x03 then (8, Cpu.set_bc cpu ((cpu.bc + 1) % 65536), bus)
  else if opcode = 0x13 then (8, Cpu.set_de cpu ((cpu.de + 1) % 65536), bus)
  else if opcode = 0x23 then (8, Cpu.set_hl cpu ((cpu.hl + 1) % 65536), bus)
  else if opcode = 0x33 then (8, { cpu with sp := (cpu.sp + 1) % 65536 }, bus)
  else if opcode = 0x0B then (8, Cpu.set_bc cpu ((cpu.bc + 65535) % 65536), bus)
  else if opcode = 0x1B then (8, Cpu.set_de cpu ((cpu.de + 65535) % 65536), bus)
  else if opcode = 0x2B then (8, Cpu.set_hl cpu ((cpu.hl + 65535) % 65536), bus)
  else if opcode = 0x3B then (8, { cpu with sp := (cpu.sp + 65535) % 65536 }, bus)
  -- ADD HL,rr
  else if opcode = 0x09 ∨ opcode = 0x19 ∨ opcode = 0x29 ∨ opcode = 0x39 then
    let hl := cpu.hl
    let rr :=
      if opcode = 0x09 then cpu.bc
      else if opcode = 0x19 then cpu.de
      else if opcode = 0x29 then cpu.hl
      else cpu.sp
    let sum := hl + rr
    let cpu := cpu.set_flag .N false
    let cpu := cpu.set_flag .H (decide ((hl &&& 0x0FFF) + (rr &&& 0x0FFF) > 0x0FFF))
    let cpu := cpu.set_flag .C (decide (sum > 0xFFFF))
    (8, Cpu.set_hl cpu (sum % 65536), bus)
  -- ALU A,r
  else if 0x80 ≤ opcode ∧ opcode ≤ 0xBF then
    let op := (opcode >>> 3) &&& 0x07
    let r := r8_from_code (opcode &&& 0x07)
    let p := Cpu.read_r8 env cpu bus r
    let v := p.1
    let cpu := p.2.1
    let carry := if cpu.flag .C then 1 else 0
    let cpu :=
      if op = 0 then let q := alu_add cpu cpu.a v 0; { q.2 with a := q.1 }     -- ADD
      else if op = 1 then let q := alu_add cpu cpu.a v carry; { q.2 with a := q.1 } -- ADC
      else if op = 2 then let q := alu_sub cpu cpu.a v 0; { q.2 with a := q.1 }     -- SUB
      else if op = 3 then let q := alu_sub cpu cpu.a v carry; { q.2 with a := q.1 } -- SBC
      else if op = 4 then
        let cpu := { cpu with a := cpu.a &&& v }
        let cpu := cpu.set_flag .Z (cpu.a == 0)
        let cpu := cpu.set_flag .N false
        let cpu := cpu.set_flag .H true
        cpu.set_flag .C false
      else if op = 5 then
        let cpu := { cpu with a := cpu.a ^^^ v }
        let cpu := cpu.set_flag .Z (cpu.a == 0)
        let cpu := cpu.set_flag .N false
        let cpu := cpu.set_flag .H false
        cpu.set_flag .C false
      else if op = 6 then
        let cpu := { cpu with a := cpu.a ||| v }
        let cpu := cpu.set_flag .Z (cpu.a == 0)
        let cpu := cpu.set_flag .N false
        let cpu := cpu.set_flag .H false
        cpu.set_flag .C false
      else (alu_sub cpu cpu.a v 0).2 -- CP
    (if r = .HlInd then 8 else 4, cpu, p.2.2)
  -- Immediate ALU ops
  else if opcode = 0xC6 then
    let p := Cpu.fetch8 env cpu bus
    let q := alu_add p.2.1 p.2.1.a p.1 0
    (8, { q.2 with a := q.1 }, p.2.2)
  else if opcode = 0xCE then
    let p := Cpu.fetch8 env cpu bus
    let cpu := p.2.1
    let carry := if cpu.flag .C then 1 else 0
    let q := alu_add cpu cpu.a p.1 carry
    (8, { q.2 with a := q.1 }, p.2.2)
  else if opcode = 0xD6 then
    let p := Cpu.fetch8 env cpu bus
    let q := alu_sub p.2.1 p.2.1.a p.1 0
    (8, { q.2 with a := q.1 }, p.2.2)
  else if opcode = 0xDE then
    let p := Cpu.fetch8 env cpu bus
    let cpu := p.2.1
    let carry := if cpu.flag .C then 1 else 0
    let q := alu_sub cpu cpu.a p.1 carry
    (8, { q.2 with a := q.1 }, p.2.2)
  else if opcode = 0xE6 then
    let p := Cpu.fetch8 env cpu bus
    let cpu := { p.2.1 with a := p.2.1.a &&& p.1 }
    let cpu := cpu.set_flag .Z (cpu.a == 0)
    let cpu := cpu.set_flag .N false
    let cpu := cpu.set_flag .H true
    (8, cpu.set_flag .C false, p.2.2)
  else if opcode = 0xEE then
    let p := Cpu.fetch8 env cpu bus
    let cpu := { p.2.1 with a := p.2.1.a ^^^ p.1 }
    let cpu := cpu.set_flag .Z (cpu.a == 0)
    let cpu := cpu.set_flag .N false
    let cpu := cpu.set_flag .H false
    (8, cpu.set_flag .C false, p.2.2)
  else if opcode = 0xF6 then
    let p := Cpu.fetch8 env cpu bus
    let cpu := { p.2.1 with a := p.2.1.a ||| p.1 }
    let cpu := cpu.set_flag .Z (cpu.a == 0)
    let cpu := cpu.set_flag .N false
    let cpu := cpu.set_flag .H false
    (8, cpu.set_flag .C false, p.2.2)
  else if opcode = 0xFE then
    let p := Cpu.fetch8 env cpu bus
    (8, (alu_sub p.2.1 p.2.1.a p.1 0).2, p.2.2)
  -- JR
  else if opcode = 0x18 ∨ opcode = 0x20 ∨ opcode = 0x28 ∨ opcode = 0x30 ∨
      opcode = 0x38 then
    let p := Cpu.fetch8 env cpu bus
    let off := as_i8 p.1
    let cpu := p.2.1
    if opcode = 0x18 ∨ cond_check cpu opcode then (12, jr cpu off, p.2.2)
    else (8, cpu, p.2.2)
  -- JP
  else if opcode = 0xC3 then
    let p := Cpu.fetch16 env cpu bus
    (16, { p.2.1 with pc := p.1 }, p.2.2)
  else if opcode = 0xE9 then (4, { cpu with pc := cpu.hl }, bus)
  else if opcode = 0xC2 ∨ opcode = 0xCA ∨ opcode = 0xD2 ∨ opcode = 0xDA then
    let p := Cpu.fetch16 env cpu bus
    if cond_check p.2.1 opcode then (16, { p.2.1 with pc := p.1 }, p.2.2)
    else (12, p.2.1, p.2.2)
  -- CALL
  else if opcode = 0xCD then
    let p := Cpu.fetch16 env cpu bus
    let q := Cpu.push16 env p.2.1 p.2.2 p.2.1.pc
    (24, { q.1 with pc := p.1 }, q.2)
  else if opcode = 0xC4 ∨ opcode = 0xCC ∨ opcode = 0xD4 ∨ opcode = 0xDC then
    let p := Cpu.fetch16 env cpu bus
    if cond_check p.2.1 opcode then
      let q := Cpu.push16 env p.2.1 p.2.2 p.2.1.pc
      (24, { q.1 with pc := p.1 }, q.2)
    else (12, p.2.1, p.2.2)
  -- RET
  else if opcode = 0xC9 then
    let p := Cpu.pop16 env cpu bus
    (16, { p.2.1 with pc := p.1 }, p.2.2)
  else if opcode = 0xC0 ∨ opcode = 0xC8 ∨ opcode = 0xD0 ∨ opcode = 0xD8 then
    if cond_check cpu opcode then
      let p := Cpu.pop16 env cpu bus
      (20, { p.2.1 with pc := p.1 }, p.2.2)
    else (8, cpu, bus)
  else if opcode = 0xD9 then
    let p := Cpu.pop16 env cpu bus
    (16, { p.2.1 with pc := p.1, ime := true }, p.2.2)
  -- RST
  else if opcode = 0xC7 ∨ opcode = 0xCF ∨ opcode = 0xD7 ∨ opcode = 0xDF ∨
      opcode = 0xE7 ∨ opcode = 0xEF ∨ opcode = 0xF7 ∨ opcode = 0xFF then
    let p := Cpu.push16 env cpu bus cpu.pc
    (16, { p.1 with pc := opcode &&& 0x38 }, p.2)
  -- PUSH/POP
  else if opcode = 0xC5 then
    let p := Cpu.push16 env cpu bus cpu.bc
    (16, p.1, p.2)
  else if opcode = 0xD5 then
    let p := Cpu.push16 env cpu bus cpu.de
    (16, p.1, p.2)
  else if opcode = 0xE5 then
    let p := Cpu.push16 env cpu bus cpu.hl
    (16, p.1, p.2)
  else if opcode = 0xF5 then
    let p := Cpu.push16 env cpu bus cpu.af
    (16, p.1, p.2)
  else if opcode = 0xC1 then
    let p := Cpu.pop16 env cpu bus
    (12, Cpu.set_bc p.2.1 p.1, p.2.2)
  else if opcode = 0xD1 then
    let p := Cpu.pop16 env cpu bus
    (12, Cpu.set_de p.2.1 p.1, p.2.2)
  else if opcode = 0xE1 then
    let p := Cpu.pop16 env cpu bus
    (12, Cpu.set_hl p.2.1 p.1, p.2.2)
  else if opcode = 0xF1 then
    let p := Cpu.pop16 env cpu bus
    (12, Cpu.set_af p.2.1 p.1, p.2.2)
  -- Misc
  else if opcode = 0x27 then (4, daa cpu, bus)
  else if opcode = 0x2F then
    let cpu := { cpu with a := cpu.a ^^^ 0xFF }
    let cpu := cpu.set_flag .N true
    (4, cpu.set_flag .H true, bus)
  else if opcode = 0x37 then
    let cpu := cpu.set_flag .N false
    let cpu := cpu.set_flag .H false
    (4, cpu.set_flag .C true, bus)
  else if opcode = 0x3F then
    let c := cpu.flag .C
    let cpu := cpu.set_flag .N false
    let cpu := cpu.set_flag .H false
    (4, cpu.set_flag .C (!c), bus)
  else if opcode = 0xF3 then (4, { cpu with ime := false, ei_pending := false }, bus)
  else if opcode = 0xFB then (4, { cpu with ei_pending := true }, bus)
  -- Rotate A
  else if opcode = 0x07 then
    let c := cpu.a &&& 0x80 != 0
    let cpu := { cpu with a := ((cpu.a <<< 1) &&& 0xFF) ||| (cpu.a >>> 7) }
    let cpu := cpu.set_flag .Z false
    let cpu := cpu.set_flag .N false
    let cpu := cpu.set_flag .H false
    (4, cpu.set_flag .C c, bus)
  else if opcode = 0x0F then
    let c := cpu.a &&& 0x01 != 0
    let cpu := { cpu with a := (cpu.a >>> 1) ||| ((cpu.a <<< 7) &&& 0xFF) }
    let cpu := cpu.set_flag .Z false
    let cpu := cpu.set_flag .N false
    let cpu := cpu.set_flag .H false
    (4, cpu.set_flag .C c, bus)
  else if opcode = 0x17 then
    let carry_in := if cpu.flag .C then 1 else 0
    let c := cpu.a &&& 0x80 != 0
    let cpu := { cpu with a := ((cpu.a <<< 1) &&& 0xFF) ||| carry_in }
    let cpu := cpu.set_flag .Z false
    let cpu := cpu.set_flag .N false
    let cpu := cpu.set_flag .H false
    (4, cpu.set_flag .C c, bus)
  else if opcode = 0x1F then
    let carry_in := if cpu.flag .C then 0x80 else 0
    let c := cpu.a &&& 0x01 != 0
    let cpu := { cpu with a := (cpu.a >>> 1) ||| carry_in }
    let cpu := cpu.set_flag .Z false
    let cpu := cpu.set_flag .N false
    let cpu := cpu.set_flag .H false
    (4, cpu.set_flag .C c, bus)
  -- ADD SP,e8 / LD HL,SP+e8
  else if opcode = 0xE8 ∨ opcode = 0xF8 then
    let p := Cpu.fetch8 env cpu bus
    let e := as_i8 p.1
    let cpu := p.2.1
    let sp := cpu.sp
    let res := wrap16 ((sp : Int) + e)
    let e_u := wrap16 e
    let cpu := cpu.set_flag .Z false
    let cpu := cpu.set_flag .N false
    let cpu := cpu.set_flag .H (decide ((sp &&& 0x0F) + (e_u &&& 0x0F) > 0x0F))
    let cpu := cpu.set_flag .C (decide ((sp &&& 0xFF) + (e_u &&& 0xFF) > 0xFF))
    if opcode = 0xE8 then (16, { cpu with sp := res }, p.2.2)
    else (12, Cpu.set_hl cpu res, p.2.2)
  else if opcode = 0xF9 then (8, { cpu with sp := cpu.hl }, bus)
  -- Undocumented/unused opcodes: treat as NOP.
  else (4, cpu, bus)

/-! ### CB-prefixed instructions (`src/crates/gb-core/src/cpu/cb_ops.rs`) -/

/-- `cb_ops::decode_r8` -/
def decode_r8 (idx : Nat) : R8 :=
  if idx &&& 0x07 = 0 then .B
  else if idx &&& 0x07 = 1 then .C
  else if idx &&& 0x07 = 2 then .D
  else if idx &&& 0x07 = 3 then .E
  else if idx &&& 0x07 = 4 then .H
  else if idx &&& 0x07 = 5 then .L
  else if idx &&& 0x07 = 6 then .HlInd
  else .A

/-- `cb_ops::cycles_for_target` -/
def cycles_for_target (r : R8) : Nat :=
  if r = .HlInd then 16 else 8

/-- `cb_ops::bit_cycles_for_target` -/
def bit_cycles_for_target (r : R8) : Nat :=
  if r = .HlInd then 12 else 8

/-- `cb_ops::exec`: CB-prefixed (0xCBxx) instruction implementations. -/
def cb_exec {B : Type} (env : CpuBusEnv B) (cpu : Cpu) (bus : B) (opcode : Nat) :
    Nat × Cpu × B :=
  let r := decode_r8 opcode
  if opcode ≤ 0x3F then
    -- rotates/shifts/swap
    let op := (opcode >>> 3) &&& 0x07
    let p := Cpu.read_r8 env cpu bus r
    let v := p.1
    let cpu := p.2.1
    let carry_in := if cpu.flag .C then 1 else 0
    let rc : Nat × Bool :=
      if op = 0 then (((v <<< 1) &&& 0xFF) ||| (v >>> 7), v &&& 0x80 != 0)      -- RLC
      else if op = 1 then ((v >>> 1) ||| ((v <<< 7) &&& 0xFF), v &&& 0x01 != 0) -- RRC
      else if op = 2 then (((v <<< 1) &&& 0xFF) ||| carry_in, v &&& 0x80 != 0)  -- RL
      else if op = 3 then ((v >>> 1) ||| (carry_in <<< 7), v &&& 0x01 != 0)     -- RR
      else if op = 4 then ((v <<< 1) &&& 0xFF, v &&& 0x80 != 0)                 -- SLA
      else if op = 5 then ((v >>> 1) ||| (v &&& 0x80), v &&& 0x01 != 0)         -- SRA
      else if op = 6 then ((v >>> 4) ||| ((v <<< 4) &&& 0xFF), false)           -- SWAP
      else (v >>> 1, v &&& 0x01 != 0)                                           -- SRL
    let q := Cpu.write_r8 env cpu p.2.2 r rc.1
    let cpu := q.1
    let cpu := cpu.set_flag .Z (rc.1 == 0)
    let cpu := cpu.set_flag .N false
    let cpu := cpu.set_flag .H false
    (cycles_for_target r, cpu.set_flag .C rc.2, q.2)
  else if opcode ≤ 0x7F then
    -- BIT b,r
    let bit := (opcode >>> 3) &&& 0x07
    let p := Cpu.read_r8 env cpu bus r
    let cpu := p.2.1
    let cpu := cpu.set_flag .Z (p.1 &&& (1 <<< bit) == 0)
    let cpu := cpu.set_flag .N false
    (bit_cycles_for_target r, cpu.set_flag .H true, p.2.2)
  else if opcode ≤ 0xBF then
    -- RES b,r
    let bit := (opcode >>> 3) &&& 0x07
    let p := Cpu.read_r8 env cpu bus r
    let res := p.1 &&& ((1 <<< bit) ^^^ 0xFF)
    let q := Cpu.write_r8 env p.2.1 p.2.2 r res
    (cycles_for_target r, q.1, q.2)
  else
    -- SET b,r
    let bit := (opcode >>> 3) &&& 0x07
    let p := Cpu.read_r8 env cpu bus r
    let res := p.1 ||| (1 <<< bit)
    let q := Cpu.write_r8 env p.2.1 p.2.2 r res
    (cycles_for_target r, q.1, q.2)

/-! ### Instruction loop (`Cpu::step`, `Cpu::service_interrupt`) -/

/-- `Cpu::service_interrupt`.  The source `expect`s a nonzero pending mask;
the `none` branch models the unreachable panic (every call site guards
`pending != 0`, and the mask is confined to the low five bits). -/
def service_interrupt {B : Type} (env : CpuBusEnv B) (cpu : Cpu) (bus : B)
    (pending : Nat) : Nat × Cpu × B :=
  match Interrupt.from_pending_mask pending with
  | none => (0, cpu, bus)
  | some intr =>
    let bus := env.and_iflag bus (intr.bit ^^^ 0xFF)
    let cpu := { cpu with ime := false, halted := false }
    let p := Cpu.push16 env cpu bus cpu.pc
    let cpu := { p.1 with pc := intr.vector }
    Cpu.finish_step env cpu p.2 20

/-- The shared tail of `Cpu::step`: EI delay bookkeeping, opcode fetch,
dispatch to `ops::exec` / `cb_ops::exec` and the final cycle padding. -/
def step_instruction {B : Type} (env : CpuBusEnv B) (cpu : Cpu) (bus : B) :
    Nat × Cpu × B :=
  -- EI delay: IME is enabled after the *following* instruction completes.
  let enable_ime_after := cpu.ei_pending
  let cpu := { cpu with ei_pending := false }
  let p := Cpu.fetch8 env cpu bus
  let opcode := p.1
  let q :=
    if opcode = 0xCB then
      let r := Cpu.fetch8 env p.2.1 p.2.2
      cb_exec env r.2.1 r.2.2 r.1
    else ops_exec env p.2.1 p.2.2 opcode
  let cpu := q.2.1
  let cpu :=
    if enable_ime_after ∧ opcode ≠ 0xF3 then { cpu with ime := true } else cpu
  Cpu.finish_step env cpu q.2.2 q.1

/-- `Cpu::step` -/
def Cpu.step {B : Type} (env : CpuBusEnv B) (cpu : Cpu) (bus : B) :
    Nat × Cpu × B :=
  let cpu := { cpu with step_cycles := 0 }
  let pending := pending_mask (env.ie bus) (env.iflag bus)
  if cpu.halted then
    if pending = 0 then
      let p := Cpu.tick_idle env cpu bus 4
      (4, p.1, p.2)
    else
      let cpu := { cpu with halted := false }
      if cpu.ime then service_interrupt env cpu bus pending
      else step_instruction env { cpu with halt_bug := true } bus
  else if cpu.ime ∧ pending ≠ 0 then service_interrupt env cpu bus pending
  else step_instruction env cpu bus

/-! ### Auxiliary definitions for the claim statements -/

/-- The cycle counts a single `Cpu::step` may return. -/
def CycleSet (c : Nat) : Prop :=
  c = 4 ∨ c = 8 ∨ c = 12 ∨ c = 16 ∨ c = 20 ∨ c = 24

/-- A trivial bus instance (fixed `ie` / `iflag`, reads return `v0`),
used to instantiate the CPU theorems on concrete inputs. -/
def unit_env (ie iflag v0 : Nat) : CpuBusEnv Unit where
  read8 := fun b _ => (v0, b)
  write8 := fun b _ _ => b
  tick := fun b _ => b
  ie := fun _ => ie
  iflag := fun _ => iflag
  and_iflag := fun b _ => b
  try_cgb_speed_switch := fun b => (false, b)

/-- `k` successive bus ticks of one M-cycle (4 base cycles) each, as the
CPU produces them while an OAM DMA transfer runs. -/
def dma_run (mem : Nat → Nat) (b : DmaBus) : Nat → DmaBus
  | 0 => b
  | k + 1 => tick_oam_dma mem (dma_run mem b k) 4

/-- A minimal header-sized ROM whose CGB-support byte (0x0143) is `v`:
all other header bytes are zero (mapper 0x00, 32 KiB ROM, no RAM). -/
def cgb_probe_rom (v : Nat) : List Nat :=
  (List.replicate 0x014A 0).set 0x0143 v

/-- The mapper codes `CartridgeType::from_byte` accepts (spec §6). -/
def known_mapper_codes : List Nat :=
  [0x00, 0x01, 0x02, 0x03, 0x05, 0x06, 0x0F, 0x10, 0x11, 0x12, 0x13,
   0x19, 0x1A, 0x1B, 0x1C, 0x1D, 0x1E]

/-- The ROM-size codes `RomSize::from_byte` accepts. -/
def known_rom_size_codes : List Nat :=
  [0x00, 0x01, 0x02, 0x03, 0x04, 0x05, 0x06, 0x07, 0x08, 0x52, 0x53, 0x54]

/-- The RAM-size codes `RamSize::from_byte` accepts. -/
def known_ram_size_codes : List Nat :=
  [0x00, 0x02, 0x03, 0x04, 0x05]

/-- A trivial bus-gate environment over a unit rest-state (direct reads
return 0, all triggers and the PPU gate are inert), used to instantiate
the gating theorem. -/
def unit_gate_env : BusGateEnv Unit where
  read8_direct := fun b _ => (0, b)
  write8_direct := fun b _ _ => b
  trigger_oam_bug_on_read_access := fun b _ => b
  trigger_oam_bug_on_write_access := fun b _ => b
  cpu_access_blocked_by_ppu := fun _ _ => false

/-- A concrete bus-gate state with an active OAM DMA transfer, used to
instantiate the gating theorem. -/
def gate_probe_st : BusGateSt Unit :=
  { oam_dma := OamDma.start OamDma.default 0xC0
    oam_bug_read_idu_pending_addr := none
    rest := () }

/-! # Theorems -/

/-! ### Generic bit lemmas -/

theorem land240_land15 (z : Nat) : z &&& 240 &&& 15 = 0 := by
  rw [Nat.land_assoc, show (240 : Nat) &&& 15 = 0 from rfl]
  exact Nat.and_zero z

theorem land_mask_lt_32 (x y : Nat) : x &&& y &&& 0x1F < 32 :=
  show _ < 2 ^ 5 from Nat.and_lt_two_pow _ (by norm_num)

/-! ### C10: joypad edge interrupt -/

/-- C10: a set-button call that takes a button from released to pressed
raises the Joypad interrupt bit (bit 4 of IF) regardless of the selection
lines (the JOYP selection is not consulted at all); a call that keeps the
button pressed, or releases it, leaves the interrupt flags unchanged. -/
theorem joypad_set_button_edge :
    (∀ (jp : Joypad) (btn : Button) (iflag : Nat),
        jp.state &&& btn.mask = 0 →
        Joypad.set_button jp btn true iflag =
          ({ jp with state := jp.state ||| btn.mask }, iflag ||| 0x10)) ∧
    (∀ (jp : Joypad) (btn : Button) (iflag : Nat),
        jp.state &&& btn.mask ≠ 0 →
        Joypad.set_button jp btn true iflag =
          ({ jp with state := jp.state ||| btn.mask }, iflag)) ∧
    (∀ (jp : Joypad) (btn : Button) (iflag : Nat),
        Joypad.set_button jp btn false iflag =
          ({ jp with state := jp.state &&& (btn.mask ^^^ 0xFF) }, iflag)) := by
  refine ⟨?_, ?_, ?_⟩ <;> intro jp btn iflag
  · intro h
    simp [Joypad.set_button, Interrupt.bit, h]
  · intro h
    simp [Joypad.set_button, h]
  · simp [Joypad.set_button]

theorem joypad_set_button_edge_witness :
    Joypad.new.state &&& Button.A.mask = 0 ∧
    Joypad.set_button Joypad.new Button.A true 0 =
      ({ Joypad.new with state := Joypad.new.state ||| Button.A.mask }, 0 ||| 0x10) :=
  ⟨by decide, joypad_set_button_edge.1 Joypad.new Button.A 0 (by decide)⟩

/-! ### C3: OAM DMA bus gating -/

/-- C3: while an OAM DMA transfer is active, a CPU read through
`Bus::read8` of any address outside HRAM (0xFF80..=0xFFFE) returns 0xFF,
and a CPU write through `Bus::write8` to such an address leaves the whole
bus state unchanged — for every behaviour of the underlying direct
accessors, OAM-bug triggers and PPU gate. -/
theorem oam_dma_bus_gate {R : Type} (env : BusGateEnv R) (b : BusGateSt R)
    (addr val : Nat) (hact : b.oam_dma.active = true)
    (haddr : ¬(0xFF80 ≤ addr ∧ addr ≤ 0xFFFE)) :
    (bus_read8 env b addr).1 = 0xFF ∧ bus_write8 env b addr val = b := by
  have hb : b.oam_dma.blocks_cpu_addr addr = true := by
    simp only [OamDma.blocks_cpu_addr, hact, Bool.true_and, Bool.not_eq_true',
      Bool.and_eq_false_iff, decide_eq_false_iff_not]
    exact not_and_or.mp haddr
  constructor
  · simp only [bus_read8]
    split <;> simp [hb]
  · simp [bus_write8, hb]

theorem oam_dma_bus_gate_witness :
    gate_probe_st.oam_dma.active = true ∧
      ¬(0xFF80 ≤ 0xC000 ∧ 0xC000 ≤ 0xFFFE) ∧
      ((bus_read8 unit_gate_env gate_probe_st 0xC000).1 = 0xFF ∧
        bus_write8 unit_gate_env gate_probe_st 0xC000 0x12 = gate_probe_st) :=
  ⟨by decide, by decide,
   oam_dma_bus_gate unit_gate_env _ 0xC000 0x12 (by decide) (by decide)⟩

/-! ### C8: header parsing (counterexample first) -/

set_option maxRecDepth 8192 in
/-- C8 fails as stated: byte 0x0143 = 0xC1 is neither 0xC0 nor 0x80, yet
parsing classifies the ROM as CGB-only, not DMG-only (the code applies the
bit-7/bit-6 interpretation of the CGB byte). -/
theorem header_cgb_byte_counterexample :
    ((0xC1 : Nat) ≠ 0xC0 ∧ (0xC1 : Nat) ≠ 0x80) ∧
    (Header.parse (cgb_probe_rom 0xC1)).toOption.map (fun h => h.cgb_support) =
      some CgbSupport.CgbOnly ∧
    CgbSupport.CgbOnly ≠ CgbSupport.DmgOnly := by
  refine ⟨by decide, ?_, by decide⟩
  decide

theorem ct_from_byte_ok_iff (b : Nat) :
    (∃ t, CartridgeType.from_byte b = .ok t) ↔ b ∈ known_mapper_codes := by
  by_cases hb : b < 0x1F
  · interval_cases b <;> simp [CartridgeType.from_byte, known_mapper_codes]
  · constructor
    · intro ht
      obtain ⟨t, ht⟩ := ht
      exfalso
      rw [CartridgeType.from_byte] at ht
      repeat rw [if_neg (by omega)] at ht
      exact Except.noConfusion ht
    · intro hmem
      exfalso
      simp only [known_mapper_codes, List.mem_cons, List.not_mem_nil, or_false] at hmem
      omega

theorem rs_from_byte_ok_iff (b : Nat) :
    (∃ t, RomSize.from_byte b = .ok t) ↔ b ∈ known_rom_size_codes := by
  by_cases hb : b < 0x55
  · interval_cases b <;> simp [RomSize.from_byte, known_rom_size_codes]
  · constructor
    · intro ht
      obtain ⟨t, ht⟩ := ht
      exfalso
      rw [RomSize.from_byte] at ht
      repeat rw [if_neg (by omega)] at ht
      exact Except.noConfusion ht
    · intro hmem
      exfalso
      simp only [known_rom_size_codes, List.mem_cons, List.not_mem_nil, or_false] at hmem
      omega

theorem ras_from_byte_ok_iff (b : Nat) :
    (∃ t, RamSize.from_byte b = .ok t) ↔ b ∈ known_ram_size_codes := by
  by_cases hb : b < 0x06
  · interval_cases b <;> simp [RamSize.from_byte, known_ram_size_codes]
  · constructor
    · intro ht
      obtain ⟨t, ht⟩ := ht
      exfalso
      rw [RamSize.from_byte] at ht
      repeat rw [if_neg (by omega)] at ht
      exact Except.noConfusion ht
    · intro hmem
      exfalso
      simp only [known_ram_size_codes, List.mem_cons, List.not_mem_nil, or_false] at hmem
      omega

/-- C8 (amended): `Cartridge::from_rom` fails — always with an
`InvalidHeader` error — exactly when the buffer is shorter than 0x014A
bytes or one of the bytes 0x0147 / 0x0148 / 0x0149 holds a code outside
the supported lists; and on success byte 0x0143 is interpreted through its
top two bits: both bits set gives CGB-only, bit 7 alone (with bit 6 clear)
gives CGB-compatible, and bit 7 clear gives DMG-only. -/
theorem header_parse_classification (rom : List Nat) :
    ((∃ e, Cartridge.from_rom rom = .error (.InvalidHeader e)) ↔
      (rom.length < 0x014A ∨ rom.getD 0x0147 0 ∉ known_mapper_codes ∨
       rom.getD 0x0148 0 ∉ known_rom_size_codes ∨
       rom.getD 0x0149 0 ∉ known_ram_size_codes)) ∧
    (∀ err, Cartridge.from_rom rom = .error err → ∃ e, err = .InvalidHeader e) ∧
    (∀ h : Header, Header.parse rom = .ok h →
       h.cgb_support =
         (if rom.getD 0x0143 0 &&& 0xC0 = 0xC0 then CgbSupport.CgbOnly
          else if rom.getD 0x0143 0 &&& 0x80 ≠ 0 then CgbSupport.CgbCompatible
          else CgbSupport.DmgOnly)) := by
  by_cases hlen : rom.length < 0x014A
  · refine ⟨⟨fun _ => Or.inl hlen, fun _ => ⟨.RomTooSmall, ?_⟩⟩, ?_, ?_⟩
    · simp only [Cartridge.from_rom, Header.parse, if_pos hlen]
    · intro err herr
      simp only [Cartridge.from_rom, Header.parse, if_pos hlen] at herr
      exact ⟨.RomTooSmall, by injection herr with h; exact h.symm⟩
    · intro h hok
      simp only [Header.parse, if_pos hlen] at hok
      exact Except.noConfusion hok
  · rcases hT : CartridgeType.from_byte (rom.getD 0x0147 0) with e | t
    · have hmemT : rom.getD 0x0147 0 ∉ known_mapper_codes := by
        intro hmem
        obtain ⟨t, ht⟩ := (ct_from_byte_ok_iff _).mpr hmem
        rw [hT] at ht
        exact Except.noConfusion ht
      refine ⟨⟨fun _ => Or.inr (Or.inl hmemT), fun _ => ⟨e, ?_⟩⟩, ?_, ?_⟩
      · simp only [Cartridge.from_rom, Header.parse, if_neg hlen, hT]
      · intro err herr
        simp only [Cartridge.from_rom, Header.parse, if_neg hlen, hT] at herr
        exact ⟨e, by injection herr with h; exact h.symm⟩
      · intro h hok
        simp only [Header.parse, if_neg hlen, hT] at hok
        exact Except.noConfusion hok
    · rcases hR : RomSize.from_byte (rom.getD 0x0148 0) with e | r
      · have hmemR : rom.getD 0x0148 0 ∉ known_rom_size_codes := by
          intro hmem
          obtain ⟨t, ht⟩ := (rs_from_byte_ok_iff _).mpr hmem
          rw [hR] at ht
          exact Except.noConfusion ht
        refine ⟨⟨fun _ => Or.inr (Or.inr (Or.inl hmemR)), fun _ => ⟨e, ?_⟩⟩, ?_, ?_⟩
        · simp only [Cartridge.from_rom, Header.parse, if_neg hlen, hT, hR]
        · intro err herr
          simp only [Cartridge.from_rom, Header.parse, if_neg hlen, hT, hR] at herr
          exact ⟨e, by injection herr with h; exact h.symm⟩
        · intro h hok
          simp only [Header.parse, if_neg hlen, hT, hR] at hok
          exact Except.noConfusion hok
      · rcases hA : RamSize.from_byte (rom.getD 0x0149 0) with e | a
        · have hmemA : rom.getD 0x0149 0 ∉ known_ram_size_codes := by
            intro hmem
            obtain ⟨t, ht⟩ := (ras_from_byte_ok_iff _).mpr hmem
            rw [hA] at ht
            exact Except.noConfusion ht
          refine ⟨⟨fun _ => Or.inr (Or.inr (Or.inr hmemA)), fun _ => ⟨e, ?_⟩⟩, ?_, ?_⟩
          · simp only [Cartridge.from_rom, Header.parse, if_neg hlen, hT, hR, hA]
          · intro err herr
            simp only [Cartridge.from_rom, Header.parse, if_neg hlen, hT, hR, hA] at herr
            exact ⟨e, by injection herr with h; exact h.symm⟩
          · intro h hok
            simp only [Header.parse, if_neg hlen, hT, hR, hA] at hok
            exact Except.noConfusion hok
        · have hmemT : rom.getD 0x0147 0 ∈ known_mapper_codes :=
            (ct_from_byte_ok_iff _).mp ⟨t, hT⟩
          have hmemR : rom.getD 0x0148 0 ∈ known_rom_size_codes :=
            (rs_from_byte_ok_iff _).mp ⟨r, hR⟩
          have hmemA : rom.getD 0x0149 0 ∈ known_ram_size_codes :=
            (ras_from_byte_ok_iff _).mp ⟨a, hA⟩
          refine ⟨⟨?_, ?_⟩, ?_, ?_⟩
          · intro hex
            obtain ⟨e, he⟩ := hex
            simp only [Cartridge.from_rom, Header.parse, if_neg hlen, hT, hR, hA] at he
            exact Except.noConfusion he
          · intro hor
            rcases hor with h | h | h | h
            · exact absurd h hlen
            · exact absurd hmemT h
            · exact absurd hmemR h
            · exact absurd hmemA h
          · intro err herr
            simp only [Cartridge.from_rom, Header.parse, if_neg hlen, hT, hR, hA] at herr
            exact Except.noConfusion herr
          · intro h hok
            simp only [Header.parse, if_neg hlen, hT, hR, hA] at hok
            injection hok with hh
            rw [← hh]
            simp only [CgbSupport.from_byte]

theorem header_parse_classification_witness :
    ∃ e, CartridgeError.InvalidHeader HeaderError.RomTooSmall =
      CartridgeError.InvalidHeader e :=
  (header_parse_classification []).2.1 (.InvalidHeader .RomTooSmall) (by rfl)

/-! ### C9: NRx4 length-enable extra clock -/

theorem land_C7_land_40 (v : Nat) : v &&& 0xC7 &&& 0x40 = v &&& 0x40 := by
  rw [Nat.land_assoc, show (0xC7 : Nat) &&& 0x40 = 0x40 from rfl]

theorem cli_length_counter (ch : SquareChannel) (extra cgb : Bool)
    (h40 : ch.freq_hi &&& 0x40 ≠ 0) :
    (ch.clock_length_internal extra cgb).length_counter = ch.length_counter - 1 := by
  simp only [SquareChannel.clock_length_internal, if_neg h40]
  split_ifs
  all_goals first
    | omega
    | (dsimp only; try omega)

theorem cli_freq_hi (ch : SquareChannel) (extra cgb : Bool) :
    (ch.clock_length_internal extra cgb).freq_hi = ch.freq_hi := by
  simp only [SquareChannel.clock_length_internal]
  split_ifs <;> rfl

theorem cli_frozen_of_ne_one (ch : SquareChannel) (extra cgb : Bool)
    (h : ch.length_counter ≠ 1) :
    (ch.clock_length_internal extra cgb).length_frozen = ch.length_frozen := by
  simp only [SquareChannel.clock_length_internal]
  split_ifs <;> first | rfl | omega

theorem cli_frozen_extra (ch : SquareChannel) (h40 : ch.freq_hi &&& 0x40 ≠ 0)
    (h : ch.length_counter = 1) :
    (ch.clock_length_internal true true).length_frozen = true := by
  simp only [SquareChannel.clock_length_internal, if_neg h40, h]
  norm_num

theorem trigger_length_counter_of_ne_zero (ch : SquareChannel)
    (h : ch.length_counter ≠ 0) :
    ch.trigger.length_counter = ch.length_counter := by
  simp only [SquareChannel.trigger, SquareChannel.sweep_calculate, if_neg h]
  split_ifs <;> rfl

theorem trigger_length_counter_of_zero (ch : SquareChannel)
    (h : ch.length_counter = 0) :
    ch.trigger.length_counter = 64 := by
  simp only [SquareChannel.trigger, SquareChannel.sweep_calculate, if_pos h]
  split_ifs <;> rfl

theorem trigger_freq_hi (ch : SquareChannel) : ch.trigger.freq_hi = ch.freq_hi := by
  simp only [SquareChannel.trigger, SquareChannel.sweep_calculate]
  split_ifs <;> rfl

/-- C9: an NRx4 write that turns the length-enable bit on while the frame
sequencer is at an odd step clocks the length counter exactly once before
any trigger in the same write (first two parts: with and without a
simultaneous trigger, the counter ends one lower); and on CGB, if that
extra clock brought the counter to zero and the write also triggers, the
counter is reloaded to 64 and clocked once more, ending at 63 = max − 1. -/
theorem square_length_extra_clock :
    (∀ (ch : SquareChannel) (v step n : Nat) (cgb : Bool),
        step % 2 = 1 →
        ch.freq_hi &&& 0x40 = 0 →
        v &&& 0x40 ≠ 0 →
        ch.length_frozen = false →
        ch.length_counter = n → 2 ≤ n →
        (SquareChannel.write_nr14 ch v step cgb).length_counter = n - 1) ∧
    (∀ (ch : SquareChannel) (v step : Nat) (cgb : Bool),
        step % 2 = 1 →
        ch.freq_hi &&& 0x40 = 0 →
        v &&& 0x40 ≠ 0 → v &&& 0x80 = 0 →
        1 ≤ ch.length_counter →
        (SquareChannel.write_nr14 ch v step cgb).length_counter =
          ch.length_counter - 1) ∧
    (∀ (ch : SquareChannel) (v step : Nat),
        step % 2 = 1 →
        ch.freq_hi &&& 0x40 = 0 →
        v &&& 0x40 ≠ 0 → v &&& 0x80 ≠ 0 →
        ch.length_frozen = false →
        ch.length_counter = 1 →
        (SquareChannel.write_nr14 ch v step true).length_counter = 63) := by
  refine ⟨?_, ?_, ?_⟩
  · intro ch v step n cgb hstep hold hnew hfroz hcount hn
    have hmod : (step % 2 != 0) = true := by simp [hstep]
    have hbold : (ch.freq_hi &&& 64 != 0) = false := by simp [hold]
    have hbnew : (v &&& 64 != 0) = true := by simp [hnew]
    have hc7 : v &&& 0xC7 &&& 0x40 ≠ 0 := by rw [land_C7_land_40]; exact hnew
    have hn1 : ¬(n = 1) := by omega
    have hn0 : ¬(n - 1 = 0) := by omega
    simp only [SquareChannel.write_nr14, hmod, hbold, hbnew, Bool.not_false,
      Bool.true_and, Bool.and_true, if_true]
    simp [cli_length_counter, cli_frozen_of_ne_one, cli_freq_hi,
      trigger_length_counter_of_ne_zero, hc7, hn1, hn0, hfroz, hcount]
    by_cases htr : v &&& 128 = 0 <;>
      simp [htr, cli_length_counter, trigger_length_counter_of_ne_zero, hc7, hn0]
  · intro ch v step cgb hstep hold hnew htrig hcount
    have hmod : (step % 2 != 0) = true := by simp [hstep]
    have hbold : (ch.freq_hi &&& 64 != 0) = false := by simp [hold]
    have hbnew : (v &&& 64 != 0) = true := by simp [hnew]
    have hbtrig : (v &&& 128 != 0) = false := by simp [htrig]
    have hc7 : v &&& 0xC7 &&& 0x40 ≠ 0 := by rw [land_C7_land_40]; exact hnew
    simp only [SquareChannel.write_nr14, hmod, hbold, hbnew, hbtrig,
      Bool.not_false, Bool.true_and, Bool.and_true, Bool.false_and,
      Bool.and_false, if_true]
    simp [cli_length_counter, hc7]
  · intro ch v step hstep hold hnew htrig hfroz hcount
    have hmod : (step % 2 != 0) = true := by simp [hstep]
    have hbold : (ch.freq_hi &&& 64 != 0) = false := by simp [hold]
    have hbnew : (v &&& 64 != 0) = true := by simp [hnew]
    have hbtrig : (v &&& 128 != 0) = true := by simp [htrig]
    have hc7 : v &&& 0xC7 &&& 0x40 ≠ 0 := by rw [land_C7_land_40]; exact hnew
    simp only [SquareChannel.write_nr14, hmod, hbold, hbnew, hbtrig,
      Bool.not_false, Bool.true_and, Bool.and_true, if_true]
    simp [cli_length_counter, cli_freq_hi, cli_frozen_extra, trigger_freq_hi,
      trigger_length_counter_of_zero, hc7, hcount, hfroz]

theorem square_length_extra_clock_witness :
    let ch := { SquareChannel.new true with length_counter := 1 }
    (1 : Nat) % 2 = 1 ∧
    (SquareChannel.write_nr14 ch 0xC0 1 true).length_counter = 63 :=
  ⟨by decide,
   square_length_extra_clock.2.2 { SquareChannel.new true with length_counter := 1 }
     0xC0 1 (by decide) (by decide) (by decide) (by decide) (by decide) (by decide)⟩

/-! ### C4: OAM DMA timing -/

theorem pop_inactive (sb n su bu : Nat) :
    OamDma.pop_transfer ⟨false, sb, n, su, bu⟩ = (none, ⟨false, sb, n, su, bu⟩) := by
  simp [OamDma.pop_transfer]

theorem pop_budget_zero (sb n : Nat) :
    OamDma.pop_transfer ⟨true, sb, n, 0, 0⟩ = (none, ⟨true, sb, n, 0, 0⟩) := by
  simp [OamDma.pop_transfer, OAM_DMA_CYCLES_PER_BYTE]

theorem pop_startup (sb : Nat) :
    OamDma.pop_transfer ⟨true, sb, 0, 4, 4⟩ = (none, ⟨true, sb, 0, 0, 0⟩) := by
  simp [OamDma.pop_transfer, OAM_DMA_CYCLES_PER_BYTE]

theorem pop_mid (sb n : Nat) (hn : n + 1 < 160) :
    OamDma.pop_transfer ⟨true, sb, n, 0, 4⟩ =
      (some ((sb + n) % 65536, n), ⟨true, sb, n + 1, 0, 0⟩) := by
  have h1 : (n + 1) % 65536 = n + 1 := Nat.mod_eq_of_lt (by omega)
  have h2 : ¬(n + 1 ≥ 160) := by omega
  simp [OamDma.pop_transfer, OAM_DMA_CYCLES_PER_BYTE, OAM_DMA_BYTES, h1, h2]

theorem pop_last (sb : Nat) :
    OamDma.pop_transfer ⟨true, sb, 159, 0, 4⟩ =
      (some ((sb + 159) % 65536, 159), ⟨false, sb, 160, 0, 0⟩) := by
  simp [OamDma.pop_transfer, OAM_DMA_CYCLES_PER_BYTE, OAM_DMA_BYTES]

theorem tick_dma_first (mem oam : Nat → Nat) (sb : Nat) :
    tick_oam_dma mem ⟨⟨true, sb, 0, 4, 0⟩, oam⟩ 4 = ⟨⟨true, sb, 0, 0, 0⟩, oam⟩ := by
  simp [tick_oam_dma, OamDma.add_cycles, dma_drain, pop_startup]

theorem tick_dma_mid (mem oam : Nat → Nat) (sb n : Nat) (hn : n + 1 < 160) :
    tick_oam_dma mem ⟨⟨true, sb, n, 0, 0⟩, oam⟩ 4 =
      ⟨⟨true, sb, n + 1, 0, 0⟩,
       fun i => if i = n then mem ((sb + n) % 65536) else oam i⟩ := by
  simp [tick_oam_dma, OamDma.add_cycles, dma_drain, pop_mid _ _ hn, pop_budget_zero]

theorem tick_dma_last (mem oam : Nat → Nat) (sb : Nat) :
    tick_oam_dma mem ⟨⟨true, sb, 159, 0, 0⟩, oam⟩ 4 =
      ⟨⟨false, sb, 160, 0, 0⟩,
       fun i => if i = 159 then mem ((sb + 159) % 65536) else oam i⟩ := by
  simp [tick_oam_dma, OamDma.add_cycles, dma_drain, pop_last, pop_inactive]

theorem dma_run_shift (mem : Nat → Nat) (b : DmaBus) :
    ∀ k, dma_run mem b (k + 1) = dma_run mem (tick_oam_dma mem b 4) k := by
  intro k
  induction k with
  | zero => rfl
  | succ k ih =>
    show tick_oam_dma mem (dma_run mem b (k + 1)) 4 = _
    rw [ih]
    rfl

theorem dma_run_mid (mem : Nat → Nat) (sb : Nat) :
    ∀ (m n : Nat) (oam : Nat → Nat), n + m < 160 →
    dma_run mem ⟨⟨true, sb, n, 0, 0⟩, oam⟩ m =
      ⟨⟨true, sb, n + m, 0, 0⟩,
       fun i => if n ≤ i ∧ i < n + m then mem ((sb + i) % 65536) else oam i⟩ := by
  intro m
  induction m with
  | zero =>
    intro n oam _
    refine congrArg (DmaBus.mk _) ?_
    funext i
    exact (if_neg (by omega)).symm
  | succ m ih =>
    intro n oam hm
    show tick_oam_dma mem (dma_run mem ⟨⟨true, sb, n, 0, 0⟩, oam⟩ m) 4 = _
    rw [ih n oam (by omega)]
    rw [tick_dma_mid _ _ _ _ (by omega)]
    refine congrArg (DmaBus.mk _) ?_
    funext i
    by_cases h1 : i = n + m
    · subst h1
      rw [if_pos rfl, if_pos (by omega)]
    · rw [if_neg h1]
      by_cases h2 : n ≤ i ∧ i < n + m
      · rw [if_pos h2, if_pos (by omega)]
      · rw [if_neg h2, if_neg (by omega)]

theorem dma_run_complete (mem : Nat → Nat) (sb : Nat) (oam : Nat → Nat) :
    dma_run mem ⟨⟨true, sb, 0, 0, 0⟩, oam⟩ 160 =
      ⟨⟨false, sb, 160, 0, 0⟩,
       fun i => if i < 160 then mem ((sb + i) % 65536) else oam i⟩ := by
  show tick_oam_dma mem (dma_run mem ⟨⟨true, sb, 0, 0, 0⟩, oam⟩ 159) 4 = _
  rw [dma_run_mid mem sb 159 0 oam (by omega)]
  rw [tick_dma_last]
  refine congrArg (DmaBus.mk _) ?_
  funext i
  by_cases h1 : i = 159
  · subst h1
    rw [if_pos rfl, if_pos (by omega)]
  · rw [if_neg h1]
    by_cases h2 : 0 ≤ i ∧ i < 159
    · rw [if_pos h2, if_pos (by omega)]
    · rw [if_neg h2, if_neg (by omega)]

/-- C4: writing `page` to 0xFF46 starts a transfer that waits one M-cycle
before the first byte, then copies one byte per M-cycle: after exactly
161 M-cycle ticks ((1 + 160) × 4 base cycles) all 0xA0 bytes from
`page << 8` have been copied into OAM and the engine is inactive, while
after only 160 M-cycle ticks the transfer is still active. -/
theorem oam_dma_transfer_timing (mem oam : Nat → Nat) (page : Nat)
    (hp : page < 256) :
    ((dma_run mem ⟨OamDma.start OamDma.default page, oam⟩ 161).oam_dma.active
        = false ∧
      (∀ i, i < 160 →
        (dma_run mem ⟨OamDma.start OamDma.default page, oam⟩ 161).oam i =
          mem (page * 256 + i)) ∧
      (∀ i, 160 ≤ i →
        (dma_run mem ⟨OamDma.start OamDma.default page, oam⟩ 161).oam i = oam i)) ∧
    (dma_run mem ⟨OamDma.start OamDma.default page, oam⟩ 160).oam_dma.active
        = true := by
  have hsb : (page <<< 8) % 65536 = page * 256 := by
    rw [Nat.shiftLeft_eq]
    exact Nat.mod_eq_of_lt (by omega)
  have hst : (⟨OamDma.start OamDma.default page, oam⟩ : DmaBus) =
      ⟨⟨true, page * 256, 0, 4, 0⟩, oam⟩ := by
    simp [OamDma.start, OamDma.default, OAM_DMA_CYCLES_PER_BYTE, hsb]
  have haddr : ∀ i, i < 160 → (page * 256 + i) % 65536 = page * 256 + i := by
    intro i hi
    exact Nat.mod_eq_of_lt (by omega)
  constructor
  · rw [hst, dma_run_shift, tick_dma_first, dma_run_complete]
    refine ⟨rfl, ?_, ?_⟩
    · intro i hi
      simp [hi, haddr i hi]
    · intro i hi
      simp [show ¬(i < 160) by omega]
  · rw [hst, dma_run_shift, tick_dma_first, dma_run_mid mem _ 159 0 oam (by omega)]

theorem oam_dma_transfer_timing_witness :
    (0xC0 : Nat) < 256 ∧
    ((dma_run (fun a => a % 256) ⟨OamDma.start OamDma.default 0xC0, fun _ => 0⟩
        161).oam_dma.active = false ∧
      (∀ i, i < 160 →
        (dma_run (fun a => a % 256) ⟨OamDma.start OamDma.default 0xC0, fun _ => 0⟩
          161).oam i = (0xC0 * 256 + i) % 256) ∧
      (∀ i, 160 ≤ i →
        (dma_run (fun a => a % 256) ⟨OamDma.start OamDma.default 0xC0, fun _ => 0⟩
          161).oam i = 0)) ∧
    (dma_run (fun a => a % 256) ⟨OamDma.start OamDma.default 0xC0, fun _ => 0⟩
        160).oam_dma.active = true :=
  ⟨by decide, oam_dma_transfer_timing (fun a => a % 256) (fun _ => 0) 0xC0 (by decide)⟩

/-! ### C6: HDMA / GDMA -/

theorem hdma_log_read (r : HdmaLog) (a : Nat) :
    hdma_log_env.read8_direct r a = (r.mem a, r) := rfl

theorem hdma_log_write (r : HdmaLog) (a v : Nat) :
    hdma_log_env.write8_direct r a v = { r with writes := r.writes ++ [(a, v)] } := rfl

theorem copy_from_log (sb db : Nat) :
    ∀ (k i : Nat) (r : HdmaLog), 16 - i = k →
    (hdma_copy_from hdma_log_env sb db i r).writes.length =
      r.writes.length + k := by
  intro k
  induction k with
  | zero =>
    intro i r hk
    rw [hdma_copy_from, if_neg (by omega)]
    omega
  | succ k ih =>
    intro i r hk
    rw [hdma_copy_from, if_pos (by omega)]
    simp only [hdma_log_read, hdma_log_write]
    rw [ih (i + 1) _ (by omega)]
    simp only [List.length_append, List.length_cons, List.length_nil]
    omega

theorem perform_block_spec (st : HdmaSt HdmaLog)
    (h : st.cgb_hdma_blocks_remaining ≠ 0) :
    (perform_hdma_block hdma_log_env st).rest.writes.length =
      st.rest.writes.length + 16 ∧
    (perform_hdma_block hdma_log_env st).cgb_hdma_blocks_remaining =
      st.cgb_hdma_blocks_remaining - 1 ∧
    (perform_hdma_block hdma_log_env st).cgb_hdma_active =
      (if st.cgb_hdma_blocks_remaining - 1 = 0 then false
       else st.cgb_hdma_active) ∧
    (perform_hdma_block hdma_log_env st).is_cgb = st.is_cgb ∧
    (perform_hdma_block hdma_log_env st).ioregs = st.ioregs := by
  simp only [perform_hdma_block, if_neg h]
  have hlog := copy_from_log (sanitize_hdma_source st.cgb_hdma_src)
    (0x8000 ||| (st.cgb_hdma_dst - 0x8000 &&& 0x1FF0)) 16 0 st.rest rfl
  split_ifs with h0 <;> simp_all

theorem gdma_drain_spec :
    ∀ (n : Nat) (st : HdmaSt HdmaLog), st.cgb_hdma_blocks_remaining = n →
    (gdma_drain hdma_log_env st).rest.writes.length =
      st.rest.writes.length + 16 * n ∧
    (gdma_drain hdma_log_env st).cgb_hdma_active =
      (if n = 0 then st.cgb_hdma_active else false) ∧
    (gdma_drain hdma_log_env st).cgb_hdma_blocks_remaining = 0 := by
  intro n
  induction n with
  | zero =>
    intro st hn
    rw [gdma_drain, if_neg (by omega)]
    simp [hn]
  | succ n ih =>
    intro st hn
    rw [gdma_drain, if_pos (by omega)]
    obtain ⟨hw, hb, ha, -, -⟩ := perform_block_spec st (by omega)
    obtain ⟨hw2, ha2, hb2⟩ := ih (perform_hdma_block hdma_log_env st) (by omega)
    refine ⟨by rw [hw2, hw]; omega, ?_, hb2⟩
    rw [ha2, ha]
    rcases Nat.eq_zero_or_pos n with h0 | h0 <;> simp [h0, hn] <;> omega

theorem read_hdma5_bit7 {R : Type} (st : HdmaSt R) (hc : st.is_cgb = true)
    (ha : st.cgb_hdma_active = false) :
    (read_hdma5 st).testBit 7 = true := by
  simp only [read_hdma5, hc, ha, Bool.not_true, Bool.not_false,
    Bool.false_eq_true, if_false, if_true, true_and]
  by_cases hb : st.cgb_hdma_blocks_remaining = 0
  · rw [if_pos hb]
    decide
  · rw [if_neg hb]
    rw [Nat.testBit_or, show Nat.testBit 128 7 = true by decide]
    exact Bool.true_or _

/-- C6: on CGB, (a) writing HDMA5 with bit 7 clear while no HBlank DMA is
active performs a GDMA that immediately copies (blocks+1) × 16 bytes and
ends inactive; (b) writing HDMA5 with bit 7 set arms HBlank DMA without
copying anything, and tick_hdma during an HBlank on a visible line then
copies exactly one 16-byte block, records the line, and ticking again in
the same state is a no-op (at most one block per LY); (c) writing HDMA5
with bit 7 clear while HBlank DMA is active aborts the transfer and the
next HDMA5 read has bit 7 set. -/
theorem hdma_transfer_spec :
    (∀ (st : HdmaSt HdmaLog) (control : Nat),
        st.is_cgb = true → st.cgb_hdma_active = false →
        control &&& 0x80 = 0 →
        (start_hdma_transfer hdma_log_env st control).rest.writes.length =
          st.rest.writes.length + 16 * ((control &&& 0x7F) + 1) ∧
        (start_hdma_transfer hdma_log_env st control).cgb_hdma_active = false ∧
        (start_hdma_transfer hdma_log_env st control).cgb_hdma_blocks_remaining
          = 0) ∧
    (∀ (st : HdmaSt HdmaLog) (control : Nat),
        st.is_cgb = true → st.cgb_hdma_active = false →
        control &&& 0x80 ≠ 0 →
        start_hdma_transfer hdma_log_env st control =
          { st with
            cgb_hdma_src := sanitize_hdma_source st.cgb_hdma_src
            cgb_hdma_dst := 0x8000 ||| ((st.cgb_hdma_dst - 0x8000) &&& 0x1FF0)
            cgb_hdma_blocks_remaining := (control &&& 0x7F) + 1
            cgb_hdma_last_hblank_ly := none
            cgb_hdma_active := true }) ∧
    (∀ st : HdmaSt HdmaLog,
        st.is_cgb = true → st.cgb_hdma_active = true →
        hdma_lcd_enabled st = true → hdma_ppu_mode st = 0 →
        st.ioregs 0x44 < 144 →
        st.cgb_hdma_last_hblank_ly ≠ some (st.ioregs 0x44) →
        st.cgb_hdma_blocks_remaining ≠ 0 →
        (tick_hdma hdma_log_env st).rest.writes.length =
          st.rest.writes.length + 16 ∧
        (tick_hdma hdma_log_env st).cgb_hdma_blocks_remaining =
          st.cgb_hdma_blocks_remaining - 1 ∧
        (tick_hdma hdma_log_env st).cgb_hdma_last_hblank_ly =
          some (st.ioregs 0x44) ∧
        tick_hdma hdma_log_env (tick_hdma hdma_log_env st) =
          tick_hdma hdma_log_env st) ∧
    (∀ (st : HdmaSt HdmaLog) (control : Nat),
        st.is_cgb = true → st.cgb_hdma_active = true →
        control &&& 0x80 = 0 →
        start_hdma_transfer hdma_log_env st control =
          { st with cgb_hdma_active := false, cgb_hdma_last_hblank_ly := none } ∧
        (read_hdma5 { st with
            cgb_hdma_active := false
            cgb_hdma_last_hblank_ly := none }).testBit 7 = true) := by
  have hmod : ∀ c : Nat, ((c &&& 0x7F) + 1) % 256 = (c &&& 0x7F) + 1 := by
    intro c
    have : c &&& 0x7F < 128 :=
      show _ < 2 ^ 7 from Nat.and_lt_two_pow _ (by norm_num)
    exact Nat.mod_eq_of_lt (by omega)
  refine ⟨?_, ?_, ?_, ?_⟩
  · intro st control hc ha hbit
    simp only [start_hdma_transfer, hc, ha, Bool.not_true, Bool.false_eq_true,
      if_false, false_and, hbit, if_pos trivial, eq_self_iff_true, if_true]
    have := gdma_drain_spec ((control &&& 0x7F) + 1)
      { st with
        cgb_hdma_src := sanitize_hdma_source st.cgb_hdma_src
        cgb_hdma_dst := 0x8000 ||| ((st.cgb_hdma_dst - 0x8000) &&& 0x1FF0)
        cgb_hdma_blocks_remaining := ((control &&& 0x7F) + 1) % 256
        cgb_hdma_last_hblank_ly := none
        cgb_hdma_active := false } (by simp [hmod])
    rw [hc] at this
    dsimp only at this
    refine ⟨?_, ?_, this.2.2⟩
    · rw [this.1]
    · rw [this.2.1]
      simp [ite_self]
  · intro st control hc ha hbit
    simp only [start_hdma_transfer, hc, ha, Bool.not_true, Bool.false_eq_true,
      if_false, false_and, if_neg hbit, hmod]
  · intro st hc ha hlcd hmode hly hlast hblocks
    obtain ⟨hw, hb, hact, hcgb, hio⟩ := perform_block_spec st hblocks
    have htick : tick_hdma hdma_log_env st =
        { perform_hdma_block hdma_log_env st with
          cgb_hdma_last_hblank_ly := some (st.ioregs 0x44) } := by
      simp only [tick_hdma]
      rw [if_neg (by simp [hc, ha]), if_neg (by simp [hlcd]),
        if_pos ⟨hmode, hly⟩, if_pos hlast]
    refine ⟨by rw [htick]; exact hw, by rw [htick]; exact hb, by rw [htick], ?_⟩
    rw [htick]
    by_cases hact2 : (perform_hdma_block hdma_log_env st).cgb_hdma_active = true
    · simp only [hdma_lcd_enabled] at hlcd
      simp only [hdma_ppu_mode] at hmode
      simp only [tick_hdma]
      simp [hdma_lcd_enabled, hdma_ppu_mode, hcgb, hc, hact2, hio, hlcd, hmode, hly]
    · simp only [Bool.not_eq_true] at hact2
      simp [tick_hdma, hact2]
  · intro st control hc ha hbit
    constructor
    · simp only [start_hdma_transfer, hc, Bool.not_true, Bool.false_eq_true,
        if_false, ha, true_and, if_pos hbit]
    · exact read_hdma5_bit7 _ hc rfl

theorem hdma_transfer_spec_witness :
    let st : HdmaSt HdmaLog :=
      { cgb_hdma_src := 0x1200
        cgb_hdma_dst := 0x8200
        cgb_hdma_blocks_remaining := 2
        cgb_hdma_active := true
        cgb_hdma_last_hblank_ly := none
        is_cgb := true
        ioregs := fun _ => 0
        rest := { mem := fun _ => 0, writes := [] } }
    st.is_cgb = true ∧ st.cgb_hdma_active = true ∧ (0 : Nat) &&& 0x80 = 0 ∧
    (start_hdma_transfer hdma_log_env st 0 =
      { st with cgb_hdma_active := false, cgb_hdma_last_hblank_ly := none } ∧
     (read_hdma5 { st with
        cgb_hdma_active := false
        cgb_hdma_last_hblank_ly := none }).testBit 7 = true) :=
  ⟨rfl, rfl, by decide,
   hdma_transfer_spec.2.2.2 _ 0 rfl rfl (by decide)⟩

/-! ### C7: LCD enable/disable behaviour of the PPU -/

/-- C7 fails as stated: re-enabling the LCD (LCDC bit 7 set while the PPU
is off) restarts the PPU in mode 2 with its dot counter at 4, not 0 — the
source sets `self.dots = 4` on the off→on edge. -/
theorem ppu_reenable_dots_counterexample :
    (Ppu.tick (fun fb _ _ => fb) 0
      { ppu := Ppu.new, ioregs := fupd (fun _ => 0) 0x40 0x80, iflag := 0 }
      ).ppu.dots = 4 ∧ (4 : Nat) ≠ 0 := by
  constructor
  · rfl
  · decide

/-- C7 (amended): clearing LCDC bit 7 makes the PPU reset LY to 0, enter
mode 0, drop frame_ready and fill the whole framebuffer with shade 0
(provided the LCD was on, so the off-edge fires); setting the bit again
while the PPU is off restarts it in mode 2 with the dot counter at 4
(not 0, as the source models the first OAM-scan M-cycle as already
elapsed). -/
theorem ppu_lcd_toggle (render : (Nat → Nat) → Nat → (Nat → Nat) → Nat → Nat)
    (s : PpuCtx) :
    (s.ioregs 0x40 &&& 0x80 = 0 → s.ppu.lcd_enabled = true → ∀ cycles,
      (Ppu.tick render cycles s).ppu.ly = 0 ∧
      (Ppu.tick render cycles s).ppu.mode = 0 ∧
      (Ppu.tick render cycles s).ppu.lcd_enabled = false ∧
      (Ppu.tick render cycles s).ppu.frame_ready = false ∧
      (∀ i, (Ppu.tick render cycles s).ppu.framebuffer i = DMG_SHADES.getD 0 0)) ∧
    (s.ioregs 0x40 &&& 0x80 ≠ 0 → s.ppu.lcd_enabled = false →
      (Ppu.tick render 0 s).ppu.mode = 2 ∧
      (Ppu.tick render 0 s).ppu.dots = 4 ∧
      (Ppu.tick render 0 s).ppu.ly = 0) := by
  constructor
  · intro hoff hon cycles
    have hb0 : (s.ioregs 0x40 &&& 0x80 != 0) = false := by simp [hoff]
    simp only [Ppu.tick, hb0, Bool.not_false, if_true, hon]
    exact ⟨rfl, rfl, rfl, rfl, fun i => rfl⟩
  · intro hbit hoffed
    have hb : (s.ioregs 0x40 &&& 0x80 != 0) = true := by simp [hbit]
    simp only [Ppu.tick, hb, hoffed, Bool.not_true, Bool.false_eq_true,
      if_false, Bool.not_false, if_true]
    exact ⟨rfl, rfl, rfl⟩

theorem ppu_lcd_toggle_witness :
    ((fun _ => (0 : Nat)) 0x40 &&& 0x80 = 0 ∧
      ({ ppu := { Ppu.new with lcd_enabled := true },
         ioregs := fun _ => 0, iflag := 0 } : PpuCtx).ppu.lcd_enabled = true) ∧
    ((Ppu.tick (fun fb _ _ => fb) 456
        { ppu := { Ppu.new with lcd_enabled := true },
          ioregs := fun _ => 0, iflag := 0 }).ppu.ly = 0 ∧
      (Ppu.tick (fun fb _ _ => fb) 456
        { ppu := { Ppu.new with lcd_enabled := true },
          ioregs := fun _ => 0, iflag := 0 }).ppu.mode = 0 ∧
      (Ppu.tick (fun fb _ _ => fb) 456
        { ppu := { Ppu.new with lcd_enabled := true },
          ioregs := fun _ => 0, iflag := 0 }).ppu.lcd_enabled = false ∧
      (Ppu.tick (fun fb _ _ => fb) 456
        { ppu := { Ppu.new with lcd_enabled := true },
          ioregs := fun _ => 0, iflag := 0 }).ppu.frame_ready = false ∧
      (∀ i, (Ppu.tick (fun fb _ _ => fb) 456
        { ppu := { Ppu.new with lcd_enabled := true },
          ioregs := fun _ => 0, iflag := 0 }).ppu.framebuffer i =
            DMG_SHADES.getD 0 0)) :=
  ⟨⟨by decide, rfl⟩,
   (ppu_lcd_toggle (fun fb _ _ => fb)
     { ppu := { Ppu.new with lcd_enabled := true },
       ioregs := fun _ => 0, iflag := 0 }).1 (by decide) rfl 456⟩

/-! ### CPU cycle counts and flag-register invariant: helper lemmas -/

theorem cycleset_ite {B : Type} (c : Prop) [Decidable c] (x y : Nat × Cpu × B)
    (hx : CycleSet x.1) (hy : CycleSet y.1) : CycleSet (if c then x else y).1 := by
  split
  · exact hx
  · exact hy

theorem finish_step_fst {B : Type} (env : CpuBusEnv B) (cpu : Cpu) (bus : B)
    (t : Nat) : (Cpu.finish_step env cpu bus t).1 = t := by
  rw [Cpu.finish_step]
  split <;> rfl

theorem from_pending_mask_isSome (p : Nat) (h0 : p ≠ 0) (h32 : p < 32) :
    ∃ i, Interrupt.from_pending_mask p = some i := by
  rw [Interrupt.from_pending_mask]
  split_ifs with a b c d e f
  · exact absurd a h0
  · exact ⟨_, rfl⟩
  · exact ⟨_, rfl⟩
  · exact ⟨_, rfl⟩
  · exact ⟨_, rfl⟩
  · exact ⟨_, rfl⟩
  · exfalso; omega

theorem service_interrupt_fst {B : Type} (env : CpuBusEnv B) (cpu : Cpu) (bus : B)
    (p : Nat) (h0 : p ≠ 0) (h32 : p < 32) :
    (service_interrupt env cpu bus p).1 = 20 := by
  obtain ⟨i, hi⟩ := from_pending_mask_isSome p h0 h32
  unfold service_interrupt
  rw [hi]
  exact finish_step_fst _ _ _ _

set_option maxHeartbeats 3200000 in
theorem ops_exec_cycles {B : Type} (env : CpuBusEnv B) (cpu : Cpu) (bus : B)
    (opcode : Nat) : CycleSet (ops_exec env cpu bus opcode).1 := by
  rw [ops_exec]
  repeat' (first | apply cycleset_ite | dsimp only)
  all_goals unfold CycleSet
  all_goals try omega
  all_goals (split <;> omega)

set_option maxHeartbeats 800000 in
theorem cb_exec_cycles {B : Type} (env : CpuBusEnv B) (cpu : Cpu) (bus : B)
    (opcode : Nat) : CycleSet (cb_exec env cpu bus opcode).1 := by
  rw [cb_exec]
  repeat' (first | apply cycleset_ite | dsimp only)
  all_goals simp only [cycles_for_target, bit_cycles_for_target]
  all_goals unfold CycleSet
  all_goals try omega
  all_goals (split <;> omega)

theorem step_instruction_cycles {B : Type} (env : CpuBusEnv B) (cpu : Cpu)
    (bus : B) : CycleSet (step_instruction env cpu bus).1 := by
  rw [step_instruction]
  dsimp only
  rw [finish_step_fst]
  apply cycleset_ite
  · exact cb_exec_cycles _ _ _ _
  · exact ops_exec_cycles _ _ _ _

/-- C1: for every bus behaviour, CPU state and opcode stream, a single
`Cpu::step` returns a cycle count in {4, 8, 12, 16, 20, 24}: the
halted-idle path returns 4, interrupt dispatch returns 20 (via
`finish_step`), and every instruction path (all base opcodes, all
CB-prefixed opcodes, and both outcomes of every conditional
branch) yields a total in that set. -/
theorem cpu_step_cycle_set {B : Type} (env : CpuBusEnv B) (cpu : Cpu) (bus : B) :
    CycleSet (Cpu.step env cpu bus).1 := by
  rw [Cpu.step]
  dsimp only
  split
  · split
    · exact Or.inl rfl
    · split
      · rw [service_interrupt_fst _ _ _ _ (by assumption)
          (show pending_mask (env.ie bus) (env.iflag bus) < 32 from
            land_mask_lt_32 _ _)]
        unfold CycleSet
        omega
      · exact step_instruction_cycles _ _ _
  · split
    · rename_i hc
      rw [service_interrupt_fst _ _ _ _ hc.2
        (show pending_mask (env.ie bus) (env.iflag bus) < 32 from
          land_mask_lt_32 _ _)]
      unfold CycleSet
      omega
    · exact step_instruction_cycles _ _ _

/-! ### C2 helper lemmas: every flag write masks the low nibble of F -/

theorem set_flag_f (cpu : Cpu) (fl : Flag) (v : Bool) :
    (cpu.set_flag fl v).f &&& 0x0F = 0 :=
  land240_land15 _

theorem set_af_f (cpu : Cpu) (v : Nat) : (cpu.set_af v).f &&& 0x0F = 0 :=
  land240_land15 _

theorem alu_add_f (cpu : Cpu) (a b ci : Nat) :
    (alu_add cpu a b ci).2.f &&& 0x0F = 0 :=
  set_flag_f _ _ _

theorem alu_sub_f (cpu : Cpu) (a b ci : Nat) :
    (alu_sub cpu a b ci).2.f &&& 0x0F = 0 :=
  set_flag_f _ _ _

theorem daa_f (cpu : Cpu) : (daa cpu).f &&& 0x0F = 0 :=
  set_flag_f _ _ _

theorem read8_f {B : Type} (env : CpuBusEnv B) (cpu : Cpu) (bus : B) (a : Nat) :
    (Cpu.read8 env cpu bus a).2.1.f = cpu.f := rfl

theorem write8_f {B : Type} (env : CpuBusEnv B) (cpu : Cpu) (bus : B)
    (a v : Nat) : (Cpu.write8 env cpu bus a v).1.f = cpu.f := rfl

theorem fetch8_f {B : Type} (env : CpuBusEnv B) (cpu : Cpu) (bus : B) :
    (Cpu.fetch8 env cpu bus).2.1.f = cpu.f := by
  rw [Cpu.fetch8]
  dsimp only
  split <;> rfl

theorem fetch16_f {B : Type} (env : CpuBusEnv B) (cpu : Cpu) (bus : B) :
    (Cpu.fetch16 env cpu bus).2.1.f = cpu.f := by
  rw [Cpu.fetch16]
  dsimp only
  rw [fetch8_f, fetch8_f]

theorem push16_f {B : Type} (env : CpuBusEnv B) (cpu : Cpu) (bus : B) (v : Nat) :
    (Cpu.push16 env cpu bus v).1.f = cpu.f := by
  rw [Cpu.push16]
  dsimp only
  rw [write8_f]
  dsimp only
  rw [write8_f]

theorem pop16_f {B : Type} (env : CpuBusEnv B) (cpu : Cpu) (bus : B) :
    (Cpu.pop16 env cpu bus).2.1.f = cpu.f := by
  rw [Cpu.pop16]
  dsimp only
  rw [read8_f]
  dsimp only
  rw [read8_f]

theorem read_r8_f {B : Type} (env : CpuBusEnv B) (cpu : Cpu) (bus : B) (r : R8) :
    (Cpu.read_r8 env cpu bus r).2.1.f = cpu.f := by
  cases r <;> rfl

theorem write_r8_f {B : Type} (env : CpuBusEnv B) (cpu : Cpu) (bus : B) (r : R8)
    (v : Nat) (h : cpu.f &&& 0x0F = 0) :
    (Cpu.write_r8 env cpu bus r v).1.f &&& 0x0F = 0 := by
  cases r <;> first | exact h | exact land240_land15 _

theorem set_bc_f (cpu : Cpu) (v : Nat) : (Cpu.set_bc cpu v).f = cpu.f := rfl

theorem set_de_f (cpu : Cpu) (v : Nat) : (Cpu.set_de cpu v).f = cpu.f := rfl

theorem set_hl_f (cpu : Cpu) (v : Nat) : (Cpu.set_hl cpu v).f = cpu.f := rfl

theorem jr_f (cpu : Cpu) (off : Int) : (jr cpu off).f = cpu.f := rfl

theorem finish_step_f {B : Type} (env : CpuBusEnv B) (cpu : Cpu) (bus : B)
    (t : Nat) : (Cpu.finish_step env cpu bus t).2.1.f = cpu.f := by
  rw [Cpu.finish_step]
  split <;> rfl

theorem finv_ite {B : Type} (c : Prop) [Decidable c] (x y : Nat × Cpu × B)
    (hx : x.2.1.f &&& 0x0F = 0) (hy : y.2.1.f &&& 0x0F = 0) :
    (if c then x else y).2.1.f &&& 0x0F = 0 := by
  split
  · exact hx
  · exact hy

theorem finv_cpu_ite (c : Prop) [Decidable c] (x y : Cpu)
    (hx : x.f &&& 0x0F = 0) (hy : y.f &&& 0x0F = 0) :
    (if c then x else y).f &&& 0x0F = 0 := by
  split
  · exact hx
  · exact hy

set_option maxHeartbeats 3200000 in
theorem ops_exec_f {B : Type} (env : CpuBusEnv B) (cpu : Cpu) (bus : B)
    (opcode : Nat) (h : cpu.f &&& 0x0F = 0) :
    (ops_exec env cpu bus opcode).2.1.f &&& 0x0F = 0 := by
  rw [ops_exec]
  repeat' (first | apply finv_ite | dsimp only)
  all_goals try simp only [read8_f, write8_f, fetch8_f, fetch16_f, push16_f,
    pop16_f, read_r8_f, set_bc_f, set_de_f, set_hl_f, jr_f]
  all_goals first
    | exact h
    | exact set_flag_f _ _ _
    | exact set_af_f _ _
    | exact alu_add_f _ _ _ _
    | exact alu_sub_f _ _ _ _
    | exact daa_f _
    | (apply write_r8_f
       simp only [read8_f, write8_f, fetch8_f, fetch16_f, read_r8_f]
       exact h)
    | (apply write_r8_f
       exact h)
    | (repeat' (first | apply finv_cpu_ite | dsimp only)
       all_goals first
         | exact h
         | exact set_flag_f _ _ _
         | exact alu_add_f _ _ _ _
         | exact alu_sub_f _ _ _ _)
theorem cb_exec_f {B : Type} (env : CpuBusEnv B) (cpu : Cpu) (bus : B)
    (opcode : Nat) (h : cpu.f &&& 0x0F = 0) :
    (cb_exec env cpu bus opcode).2.1.f &&& 0x0F = 0 := by
  rw [cb_exec]
  repeat' (first | apply finv_ite | dsimp only)
  all_goals first
    | exact set_flag_f _ _ _
    | (apply write_r8_f
       simp only [read8_f, read_r8_f]
       exact h)

theorem service_interrupt_f {B : Type} (env : CpuBusEnv B) (cpu : Cpu) (bus : B)
    (p : Nat) (h : cpu.f &&& 0x0F = 0) :
    (service_interrupt env cpu bus p).2.1.f &&& 0x0F = 0 := by
  unfold service_interrupt
  rcases Interrupt.from_pending_mask p with _ | i
  · exact h
  · dsimp only
    rw [finish_step_f]
    dsimp only
    rw [push16_f]
    exact h

theorem step_instruction_f {B : Type} (env : CpuBusEnv B) (cpu : Cpu) (bus : B)
    (h : cpu.f &&& 0x0F = 0) :
    (step_instruction env cpu bus).2.1.f &&& 0x0F = 0 := by
  rw [step_instruction]
  dsimp only
  rw [finish_step_f]
  apply finv_cpu_ite
  · apply finv_ite
    · apply cb_exec_f
      simp only [fetch8_f]
      exact h
    · apply ops_exec_f
      simp only [fetch8_f]
      exact h
  · apply finv_ite
    · apply cb_exec_f
      simp only [fetch8_f]
      exact h
    · apply ops_exec_f
      simp only [fetch8_f]
      exact h

/-- C2: the low nibble of F is invariant under `Cpu::step`: from any CPU
state with `F & 0x0F == 0`, after executing any single instruction
(including POP AF, LD r,r' with F never addressable but F-targeted
`write_r8` masking regardless, and interrupt dispatch), the low nibble
of the F register is still zero, for every bus behaviour. -/
theorem cpu_step_f_low_nibble {B : Type} (env : CpuBusEnv B) (cpu : Cpu)
    (bus : B) (h : cpu.f &&& 0x0F = 0) :
    (Cpu.step env cpu bus).2.1.f &&& 0x0F = 0 := by
  rw [Cpu.step]
  dsimp only
  split
  · split
    · exact h
    · split
      · exact service_interrupt_f _ _ _ _ h
      · exact step_instruction_f _ _ _ h
  · split
    · exact service_interrupt_f _ _ _ _ h
    · exact step_instruction_f _ _ _ h

theorem cpu_step_f_low_nibble_witness :
    Cpu.new.f &&& 0x0F = 0 ∧
      (Cpu.step (unit_env 0 0 0) Cpu.new ()).2.1.f &&& 0x0F = 0 :=
  ⟨by decide, cpu_step_f_low_nibble (unit_env 0 0 0) Cpu.new () (by decide)⟩

/-! ### C5: the HALT bug -/

/-- C5: if HALT (opcode 0x76) executes while IME is false and
`IE & IF & 0x1F` is nonzero, the CPU does not enter the halted state
(the result state is the input state with only `halt_bug` set), and any
opcode fetch performed with the `halt_bug` latch set reads the byte at
PC without incrementing PC (so the following fetch reads the same
address again), clearing the latch. -/
theorem halt_bug_behaviour {B : Type} (env : CpuBusEnv B) (cpu : Cpu) (bus : B)
    (hime : cpu.ime = false)
    (hp : pending_mask (env.ie bus) (env.iflag bus) ≠ 0) :
    ops_exec env cpu bus 0x76 = (4, { cpu with halt_bug := true }, bus) ∧
      ∀ (c : Cpu) (b : B), c.halt_bug = true →
        Cpu.fetch8 env c b =
          ((env.read8 b c.pc).1,
            { c with step_cycles := c.step_cycles + 4, halt_bug := false },
            env.tick (env.read8 b c.pc).2 4) := by
  constructor
  · rw [ops_exec]
    repeat rw [if_neg (by omega)]
    rw [if_pos rfl]
    rw [if_pos (by simp [hime, hp])]
  · intro c b hb
    simp [Cpu.fetch8, Cpu.read8, Cpu.tick_mcycle, hb]

theorem halt_bug_behaviour_witness :
    Cpu.new.ime = false ∧
      pending_mask ((unit_env 1 1 0).ie ()) ((unit_env 1 1 0).iflag ()) ≠ 0 ∧
      (ops_exec (unit_env 1 1 0) Cpu.new () 0x76 =
          (4, { Cpu.new with halt_bug := true }, ()) ∧
        ∀ (c : Cpu) (b : Unit), c.halt_bug = true →
          Cpu.fetch8 (unit_env 1 1 0) c b =
            (((unit_env 1 1 0).read8 b c.pc).1,
              { c with step_cycles := c.step_cycles + 4, halt_bug := false },
              (unit_env 1 1 0).tick ((unit_env 1 1 0).read8 b c.pc).2 4)) :=
  ⟨rfl, by decide, halt_bug_behaviour (unit_env 1 1 0) Cpu.new () rfl (by decide)⟩

end GB
